import Mathlib

/-!
Verification development for the colab_backend workspace session engine.

The definitions below are a shallow embedding of `src/server.ts` (the
current version, lines 1-1283) and `src/permission-manager-backend.ts`.
JavaScript `Map`s are modelled as insertion-ordered association lists,
dynamic JSON values as the inductive `JVal`, timestamps as integers, and
the WebSocket side effects (`ws.send`, `ws.close`, broadcast fan-out) as
an explicit list of output events produced by each handler.
-/

set_option maxHeartbeats 1000000
set_option maxRecDepth 10000

namespace Colab

/-- Insertion-ordered association list, modelling a JavaScript `Map` with
string keys (`Map.get` / `Map.set` / `Map.delete` / iteration order). -/
abbrev Assoc (α : Type) := List (String × α)

namespace Assoc

/-- Model of Map.get: first binding of the key, if any. -/
def find? {α : Type} (m : Assoc α) (k : String) : Option α :=
  match m with
  | [] => none
  | (k', v) :: rest => if k' = k then some v else find? rest k

/-- Model of Map.set: update the existing binding in place, else append. -/
def set {α : Type} (m : Assoc α) (k : String) (v : α) : Assoc α :=
  match m with
  | [] => [(k, v)]
  | (k', v') :: rest => if k' = k then (k', v) :: rest else (k', v') :: set rest k v

/-- Model of Map.delete: drop the binding of the key. -/
def erase {α : Type} (m : Assoc α) (k : String) : Assoc α :=
  match m with
  | [] => []
  | (k', v') :: rest => if k' = k then rest else (k', v') :: erase rest k

/-- Model of Map.has. -/
def contains {α : Type} (m : Assoc α) (k : String) : Bool :=
  (find? m k).isSome

/-- Model of Array.from on map values. -/
def values {α : Type} (m : Assoc α) : List α :=
  m.map (·.2)

end Assoc

/-- Dynamic JSON value, as handled by the untyped frames of the dispatcher.
`jundef` stands for JavaScript `undefined` (also the result of reading a
missing object property). Objects and arrays are encoded as cons chains
(`jobjCons key value rest`, terminated by `jobjNil`) so that ordered
own-property iteration and `{...spread}` copying are directly expressible. -/
inductive JVal : Type where
  | jundef : JVal
  | jnull : JVal
  | jbool : Bool → JVal
  | jnum : Int → JVal
  | jstr : String → JVal
  | jarrNil : JVal
  | jarrCons : JVal → JVal → JVal
  | jobjNil : JVal
  | jobjCons : String → JVal → JVal → JVal
deriving DecidableEq

/-- Build an object value from a list of fields (literal notation). -/
def jobjOf (fields : List (String × JVal)) : JVal :=
  fields.foldr (fun kv acc => JVal.jobjCons kv.1 kv.2 acc) JVal.jobjNil

/-- Property read `value[k]`: `undefined` when the key is missing or the
value is not an object. -/
def jget (o : JVal) (k : String) : JVal :=
  match o with
  | JVal.jobjCons k' v rest => if k' = k then v else jget rest k
  | _ => JVal.jundef

/-- Property write `obj[k] = v` on a copied object: updates the existing
key in place, else appends the key (JavaScript own-property order). -/
def jset (o : JVal) (k : String) (v : JVal) : JVal :=
  match o with
  | JVal.jobjNil => JVal.jobjCons k v JVal.jobjNil
  | JVal.jobjCons k' v' rest =>
    if k' = k then JVal.jobjCons k' v rest else JVal.jobjCons k' v' (jset rest k v)
  | other => other

/-- Model of isRecord: typeof value is object and value is not null
(arrays are objects in JavaScript). -/
def isRecord : JVal → Bool
  | JVal.jobjNil => true
  | JVal.jobjCons _ _ _ => true
  | JVal.jarrNil => true
  | JVal.jarrCons _ _ => true
  | _ => false

/-- String extraction: the value when it is a string, else the default. -/
def asStringOr (v : JVal) (d : String) : String :=
  match v with
  | JVal.jstr s => s
  | _ => d

/-! ### Structural string primitives

Models of the JavaScript string methods the server uses, implemented by
structural recursion over the character list (so that concrete runs
evaluate inside the kernel). -/

/-- Model of the JavaScript `trim()` method. -/
def strTrim (s : String) : String :=
  ⟨((s.data.dropWhile Char.isWhitespace).reverse.dropWhile Char.isWhitespace).reverse⟩

/-- Model of `slice(0, n)`. -/
def strTake (s : String) (n : Nat) : String :=
  ⟨s.data.take n⟩

/-- Model of the `length` property. -/
def strLength (s : String) : Nat :=
  s.data.length

/-- Uppercase one character (ASCII; the role strings are ASCII). -/
def charUpper (c : Char) : Char :=
  if 'a' ≤ c ∧ c ≤ 'z' then Char.ofNat (c.toNat - 32) else c

/-- Model of `toUpperCase()`. -/
def strToUpper (s : String) : String :=
  ⟨s.data.map charUpper⟩

/-- Digits of a decimal string, if it is one. -/
def digitsToNat? : List Char → Option Nat → Option Nat
  | [], acc => acc
  | c :: rest, acc =>
    if c.isDigit then
      digitsToNat? rest (some ((acc.getD 0) * 10 + (c.toNat - 48)))
    else none

/-- Integer parse of a trimmed decimal string (the only numeric strings
the protocol carries); anything else is NaN. -/
def strToInt? (s : String) : Option Int :=
  match s.data with
  | '-' :: rest => (digitsToNat? rest none).map (fun n => -(n : Int))
  | l => (digitsToNat? l none).map (fun n => (n : Int))

/-- User roles (`UserRole` in `types/collaboration.ts`). -/
inductive UserRole : Type where
  | ADMIN | TEACHER | STUDENT | PARENT
deriving DecidableEq

/-- The closed set of 24 permission keys (`PERMISSION_KEYS`). -/
inductive PermissionKey : Type where
  | canView | canEditBlocks | canAddBlocks | canDeleteBlocks
  | canEditSprites | canAddSprites | canDeleteSprites
  | canEditVariables | canAddVariables | canDeleteVariables
  | canRunCode | canStopCode | canChat | canDraw
  | canUploadAssets | canEditCostumes | canEditSounds
  | canRecordAudio | canUseCamera | canShareProject
  | canManageUsers | canChangePermissions | canKickUsers | canLockWorkspace
deriving DecidableEq

/-- Model of `PermissionSet`: a total map from the 24 keys to booleans. -/
structure PermissionSet : Type where
  canView : Bool
  canEditBlocks : Bool
  canAddBlocks : Bool
  canDeleteBlocks : Bool
  canEditSprites : Bool
  canAddSprites : Bool
  canDeleteSprites : Bool
  canEditVariables : Bool
  canAddVariables : Bool
  canDeleteVariables : Bool
  canRunCode : Bool
  canStopCode : Bool
  canChat : Bool
  canDraw : Bool
  canUploadAssets : Bool
  canEditCostumes : Bool
  canEditSounds : Bool
  canRecordAudio : Bool
  canUseCamera : Bool
  canShareProject : Bool
  canManageUsers : Bool
  canChangePermissions : Bool
  canKickUsers : Bool
  canLockWorkspace : Bool
deriving DecidableEq

/-- Dynamic read `permissions[key]`. -/
def getPerm (p : PermissionSet) : PermissionKey → Bool
  | .canView => p.canView
  | .canEditBlocks => p.canEditBlocks
  | .canAddBlocks => p.canAddBlocks
  | .canDeleteBlocks => p.canDeleteBlocks
  | .canEditSprites => p.canEditSprites
  | .canAddSprites => p.canAddSprites
  | .canDeleteSprites => p.canDeleteSprites
  | .canEditVariables => p.canEditVariables
  | .canAddVariables => p.canAddVariables
  | .canDeleteVariables => p.canDeleteVariables
  | .canRunCode => p.canRunCode
  | .canStopCode => p.canStopCode
  | .canChat => p.canChat
  | .canDraw => p.canDraw
  | .canUploadAssets => p.canUploadAssets
  | .canEditCostumes => p.canEditCostumes
  | .canEditSounds => p.canEditSounds
  | .canRecordAudio => p.canRecordAudio
  | .canUseCamera => p.canUseCamera
  | .canShareProject => p.canShareProject
  | .canManageUsers => p.canManageUsers
  | .canChangePermissions => p.canChangePermissions
  | .canKickUsers => p.canKickUsers
  | .canLockWorkspace => p.canLockWorkspace

/-- Dynamic write `permissions[key] = value`. -/
def setPerm (p : PermissionSet) (k : PermissionKey) (v : Bool) : PermissionSet :=
  match k with
  | .canView => { p with canView := v }
  | .canEditBlocks => { p with canEditBlocks := v }
  | .canAddBlocks => { p with canAddBlocks := v }
  | .canDeleteBlocks => { p with canDeleteBlocks := v }
  | .canEditSprites => { p with canEditSprites := v }
  | .canAddSprites => { p with canAddSprites := v }
  | .canDeleteSprites => { p with canDeleteSprites := v }
  | .canEditVariables => { p with canEditVariables := v }
  | .canAddVariables => { p with canAddVariables := v }
  | .canDeleteVariables => { p with canDeleteVariables := v }
  | .canRunCode => { p with canRunCode := v }
  | .canStopCode => { p with canStopCode := v }
  | .canChat => { p with canChat := v }
  | .canDraw => { p with canDraw := v }
  | .canUploadAssets => { p with canUploadAssets := v }
  | .canEditCostumes => { p with canEditCostumes := v }
  | .canEditSounds => { p with canEditSounds := v }
  | .canRecordAudio => { p with canRecordAudio := v }
  | .canUseCamera => { p with canUseCamera := v }
  | .canShareProject => { p with canShareProject := v }
  | .canManageUsers => { p with canManageUsers := v }
  | .canChangePermissions => { p with canChangePermissions := v }
  | .canKickUsers => { p with canKickUsers := v }
  | .canLockWorkspace => { p with canLockWorkspace := v }

/-- Guard `isPermissionKey` (`types/collaboration.ts`): a permission key
supplied as a dynamic value. -/
def asPermissionKey (v : JVal) : Option PermissionKey :=
  match v with
  | JVal.jstr s =>
    if s = "canView" then some .canView
    else if s = "canEditBlocks" then some .canEditBlocks
    else if s = "canAddBlocks" then some .canAddBlocks
    else if s = "canDeleteBlocks" then some .canDeleteBlocks
    else if s = "canEditSprites" then some .canEditSprites
    else if s = "canAddSprites" then some .canAddSprites
    else if s = "canDeleteSprites" then some .canDeleteSprites
    else if s = "canEditVariables" then some .canEditVariables
    else if s = "canAddVariables" then some .canAddVariables
    else if s = "canDeleteVariables" then some .canDeleteVariables
    else if s = "canRunCode" then some .canRunCode
    else if s = "canStopCode" then some .canStopCode
    else if s = "canChat" then some .canChat
    else if s = "canDraw" then some .canDraw
    else if s = "canUploadAssets" then some .canUploadAssets
    else if s = "canEditCostumes" then some .canEditCostumes
    else if s = "canEditSounds" then some .canEditSounds
    else if s = "canRecordAudio" then some .canRecordAudio
    else if s = "canUseCamera" then some .canUseCamera
    else if s = "canShareProject" then some .canShareProject
    else if s = "canManageUsers" then some .canManageUsers
    else if s = "canChangePermissions" then some .canChangePermissions
    else if s = "canKickUsers" then some .canKickUsers
    else if s = "canLockWorkspace" then some .canLockWorkspace
    else none
  | _ => none

/-! ## Permission manager (`src/permission-manager-backend.ts`) -/

/-- Per-workspace permission state. -/
structure WorkspacePermissionState : Type where
  globalPermissions : PermissionSet
  userPermissions : Assoc PermissionSet
  isLocked : Bool
deriving DecidableEq

/-- Map `workspacePermissions` of the manager. -/
abbrev PermMgr := Assoc WorkspacePermissionState

/-- Constant `DEFAULT_PERMISSIONS` (constructor, lines 23-48). -/
def DEFAULT_PERMISSIONS : PermissionSet :=
  { canView := true, canEditBlocks := false, canAddBlocks := false,
    canDeleteBlocks := false, canEditSprites := false, canAddSprites := false,
    canDeleteSprites := false, canEditVariables := false, canAddVariables := false,
    canDeleteVariables := false, canRunCode := false, canStopCode := false,
    canChat := true, canDraw := false, canUploadAssets := false,
    canEditCostumes := false, canEditSounds := false, canRecordAudio := false,
    canUseCamera := false, canShareProject := false, canManageUsers := false,
    canChangePermissions := false, canKickUsers := false, canLockWorkspace := false }

/-- Template `getOwnerPermissions`: all 24 keys true. -/
def getOwnerPermissions : PermissionSet :=
  { canView := true, canEditBlocks := true, canAddBlocks := true,
    canDeleteBlocks := true, canEditSprites := true, canAddSprites := true,
    canDeleteSprites := true, canEditVariables := true, canAddVariables := true,
    canDeleteVariables := true, canRunCode := true, canStopCode := true,
    canChat := true, canDraw := true, canUploadAssets := true,
    canEditCostumes := true, canEditSounds := true, canRecordAudio := true,
    canUseCamera := true, canShareProject := true, canManageUsers := true,
    canChangePermissions := true, canKickUsers := true, canLockWorkspace := true }

/-- Template `getTeacherPermissions`. -/
def getTeacherPermissions : PermissionSet :=
  { DEFAULT_PERMISSIONS with
    canView := true, canEditBlocks := true, canAddBlocks := true,
    canDeleteBlocks := true, canEditSprites := true, canAddSprites := true,
    canDeleteSprites := true, canEditVariables := true, canAddVariables := true,
    canDeleteVariables := true, canRunCode := true, canStopCode := true,
    canChat := true, canDraw := true, canUploadAssets := true,
    canEditCostumes := true, canEditSounds := true,
    canChangePermissions := true, canManageUsers := true, canKickUsers := true }

/-- Template `getStudentPermissions`. -/
def getStudentPermissions : PermissionSet :=
  { DEFAULT_PERMISSIONS with canView := true, canChat := true }

/-- Operation `initializeWorkspace`. -/
def initializeWorkspace (pm : PermMgr) (workspaceId : String) : PermMgr :=
  Assoc.set pm workspaceId
    { globalPermissions := getStudentPermissions
      userPermissions := []
      isLocked := false }

/-- Resolver `getUserPermissions` (lines 122-134). -/
def getUserPermissions (pm : PermMgr) (workspaceId userId : String) : PermissionSet :=
  match Assoc.find? pm workspaceId with
  | none => getStudentPermissions
  | some workspace =>
    match Assoc.find? workspace.userPermissions userId with
    | some p => p
    | none => workspace.globalPermissions

/-- Mutator `updateGlobalPermission` (lines 136-142); returns the updated map and
the boolean result. -/
def updateGlobalPermission (pm : PermMgr) (workspaceId : String)
    (permission value : JVal) : PermMgr × Bool :=
  match Assoc.find? pm workspaceId, asPermissionKey permission, value with
  | some workspace, some key, JVal.jbool b =>
    (Assoc.set pm workspaceId
      { workspace with globalPermissions := setPerm workspace.globalPermissions key b }, true)
  | _, _, _ => (pm, false)

/-- Mutator `updateUserPermission` (lines 144-162): lazily initialises the
per-user entry by copying the current global set, then writes the key. -/
def updateUserPermission (pm : PermMgr) (workspaceId userId : String)
    (permission value : JVal) : PermMgr × Bool :=
  match Assoc.find? pm workspaceId, asPermissionKey permission, value with
  | some workspace, some key, JVal.jbool b =>
    let userPerms :=
      match Assoc.find? workspace.userPermissions userId with
      | some p => p
      | none => workspace.globalPermissions
    (Assoc.set pm workspaceId
      { workspace with
        userPermissions := Assoc.set workspace.userPermissions userId (setPerm userPerms key b) },
     true)
  | _, _, _ => (pm, false)

/-- Operation `setUserAsTeacher`. -/
def setUserAsTeacher (pm : PermMgr) (workspaceId userId : String) : PermMgr :=
  match Assoc.find? pm workspaceId with
  | none => pm
  | some workspace =>
    Assoc.set pm workspaceId
      { workspace with
        userPermissions := Assoc.set workspace.userPermissions userId getTeacherPermissions }

/-- Operation `setUserAsAdmin`. -/
def setUserAsAdmin (pm : PermMgr) (workspaceId userId : String) : PermMgr :=
  match Assoc.find? pm workspaceId with
  | none => pm
  | some workspace =>
    Assoc.set pm workspaceId
      { workspace with
        userPermissions := Assoc.set workspace.userPermissions userId getOwnerPermissions }

/-- Operation `clearUserPermissions`. -/
def clearUserPermissions (pm : PermMgr) (workspaceId userId : String) : PermMgr :=
  match Assoc.find? pm workspaceId with
  | none => pm
  | some workspace =>
    Assoc.set pm workspaceId
      { workspace with userPermissions := Assoc.erase workspace.userPermissions userId }

/-- Mutator `applyPresetMode` (lines 187-229): replaces `globalPermissions` with a
fresh set built from `DEFAULT_PERMISSIONS`. -/
def applyPresetMode (pm : PermMgr) (workspaceId : String) (mode : JVal) : PermMgr × Bool :=
  match Assoc.find? pm workspaceId, mode with
  | some workspace, JVal.jstr m =>
    if m = "presentation" then
      (Assoc.set pm workspaceId
        { workspace with globalPermissions :=
            { DEFAULT_PERMISSIONS with canView := true, canChat := false } }, true)
    else if m = "work" then
      (Assoc.set pm workspaceId
        { workspace with globalPermissions :=
            { DEFAULT_PERMISSIONS with
              canView := true, canEditBlocks := true, canAddBlocks := true,
              canEditSprites := true, canRunCode := true, canChat := true } }, true)
    else if m = "test" ∨ m = "restricted" then
      (Assoc.set pm workspaceId
        { workspace with globalPermissions :=
            { DEFAULT_PERMISSIONS with
              canView := true, canRunCode := m = "test", canChat := false } }, true)
    else (pm, false)
  | _, _ => (pm, false)

/-- Predicate `hasPermission`. -/
def hasPermission (pm : PermMgr) (workspaceId userId : String)
    (permission : PermissionKey) : Bool :=
  getPerm (getUserPermissions pm workspaceId userId) permission

/-- Operation `deleteWorkspace`. -/
def deleteWorkspacePerms (pm : PermMgr) (workspaceId : String) : PermMgr :=
  Assoc.erase pm workspaceId

/-! ## Server helpers (`src/server.ts`, lines 182-349) -/

/-- Model of the JavaScript nullish-coalescing operator `v ?? d`. -/
def coalesce (v d : JVal) : JVal :=
  match v with
  | JVal.jundef => d
  | JVal.jnull => d
  | other => other

/-- Model of JavaScript `Number(value)` restricted to a finite result:
`none` stands for NaN (and for the coercions the protocol never uses,
such as non-numeric strings, objects, and non-empty arrays). -/
def jsToNumber : JVal → Option Int
  | JVal.jundef => none
  | JVal.jnull => some 0
  | JVal.jbool b => some (if b then 1 else 0)
  | JVal.jnum n => some n
  | JVal.jstr s => if strTrim s = "" then some 0 else strToInt? (strTrim s)
  | JVal.jarrNil => some 0
  | JVal.jarrCons _ _ => none
  | JVal.jobjNil => none
  | JVal.jobjCons _ _ _ => none

/-- Model of JavaScript truthiness `Boolean(value)`. -/
def jsTruthy : JVal → Bool
  | JVal.jundef => false
  | JVal.jnull => false
  | JVal.jbool b => b
  | JVal.jnum n => n ≠ 0
  | JVal.jstr s => s ≠ ""
  | _ => true

/-- Normalizer `normalizeUserId` (lines 182-188). -/
def normalizeUserId (v : JVal) : String :=
  match v with
  | JVal.jstr s =>
    let normalized := strTrim s
    if normalized = "" then ""
    else if strLength normalized > 128 then ""
    else normalized
  | _ => ""

/-- Normalizer `normalizeWorkspaceId` (lines 190-196). -/
def normalizeWorkspaceId (v : JVal) : String :=
  match v with
  | JVal.jstr s =>
    let normalized := strTrim s
    if normalized = "" then ""
    else if strLength normalized > 128 then ""
    else normalized
  | _ => ""

/-- Normalizer `normalizeUserRole` (lines 198-210). -/
def normalizeUserRole (v : JVal) : UserRole :=
  match v with
  | JVal.jstr s =>
    let normalized := strToUpper (strTrim s)
    if normalized = "ADMIN" then UserRole.ADMIN
    else if normalized = "TEACHER" then UserRole.TEACHER
    else if normalized = "STUDENT" then UserRole.STUDENT
    else if normalized = "PARENT" then UserRole.PARENT
    else UserRole.STUDENT
  | _ => UserRole.STUDENT

/-- Normalizer `normalizeFiniteNumber` (lines 212-215): `Number(value)`
when finite, else null. -/
def normalizeFiniteNumber (v : JVal) : Option Int :=
  jsToNumber v

/-- Normalizer `normalizeEtag` (lines 217-221). -/
def normalizeEtag (v : JVal) : Option String :=
  match v with
  | JVal.jstr s =>
    let normalized := strTrim s
    if strLength normalized > 0 then some normalized else none
  | _ => none

/-- Resolver `resolveIfMatch` (lines 223-229): `ifMatch` first, `etag` as
alias. -/
def resolveIfMatch (data : JVal) : Option String :=
  match normalizeEtag (jget data "ifMatch") with
  | some s => some s
  | none =>
    match normalizeEtag (jget data "etag") with
    | some s => some s
    | none => none

/-- Builder `buildEntityEtag` (lines 231-233). -/
def buildEntityEtag (entityKey : String) (version : Nat) : String :=
  "W/\"" ++ entityKey ++ ":" ++ toString version ++ "\""

/-- Predicate `ifMatchSatisfied` (lines 235-239): a missing value or the
literal star is always satisfied, otherwise the submitted value must equal
the (possibly undefined) current ETag. -/
def ifMatchSatisfied (submittedIfMatch : Option String) (currentEtag : Option String) : Bool :=
  match submittedIfMatch with
  | none => true
  | some s => if s = "*" then true else currentEtag = some s

/-- Predicate `ifMatchSatisfiedAny` (lines 241-245): satisfied when the
submitted value equals SOME of the candidate ETags. -/
def ifMatchSatisfiedAny (submittedIfMatch : Option String)
    (currentEtags : List (Option String)) : Bool :=
  match submittedIfMatch with
  | none => true
  | some s => if s = "*" then true else currentEtags.any (fun candidate => candidate = some s)

/-- Element-id resolution `resolveElementIdFromPayload` (lines 312-337). -/
def resolveElementIdFromPayload (elementType : String) (elementData : JVal)
    (fallbackId : JVal) : String :=
  match fallbackId with
  | JVal.jstr s =>
    if strTrim s ≠ "" then strTrim s
    else resolveFromData elementType elementData
  | _ => resolveFromData elementType elementData
where
  /-- Probe the payload keys `id`, `elementId`, `spriteId`, `blockId`,
  `variableId`, then `name` for sprites. -/
  resolveFromData (elementType : String) (elementData : JVal) : String :=
    if ¬ isRecord elementData then ""
    else
      match probeKeys elementData ["id", "elementId", "spriteId", "blockId", "variableId"] with
      | some s => s
      | none =>
        if elementType = "sprite" then
          match jget elementData "name" with
          | JVal.jstr s => if strTrim s ≠ "" then strTrim s else ""
          | _ => ""
        else ""
  /-- First candidate key whose value is a non-blank string. -/
  probeKeys (elementData : JVal) : List String → Option String
    | [] => none
    | k :: rest =>
      match jget elementData k with
      | JVal.jstr s => if strTrim s ≠ "" then some (strTrim s) else probeKeys elementData rest
      | _ => probeKeys elementData rest

/-! ## Shared-state data model (`src/server.ts`, lines 32-76) -/

/-- Entity record `WorkspaceElementState`. -/
structure WorkspaceElementState : Type where
  elementType : String
  elementId : String
  elementData : JVal
  version : Nat
  etag : String
  firstEditedBy : String
  firstEditedAt : Int
  updatedBy : String
  updatedAt : Int
deriving DecidableEq

/-- Entity record `WorkspaceSpriteMetrics`. -/
structure WorkspaceSpriteMetrics : Type where
  spriteId : String
  x : Int
  y : Int
  rotation : Option Int
  size : Option Int
  visible : Option Bool
  version : Nat
  etag : String
  firstEditedBy : String
  firstEditedAt : Int
  updatedBy : String
  updatedAt : Int
deriving DecidableEq

/-- Entity record `WorkspaceSnapshotState`. -/
structure WorkspaceSnapshotState : Type where
  spriteId : String
  serializedJson : String
  version : Nat
  etag : String
  firstEditedBy : String
  firstEditedAt : Int
  updatedBy : String
  updatedAt : Int
deriving DecidableEq

/-- Per-workspace shared state `WorkspaceSharedState`. -/
structure WorkspaceSharedState : Type where
  elements : Assoc WorkspaceElementState
  spriteMetrics : Assoc WorkspaceSpriteMetrics
  workspaceSnapshots : Assoc WorkspaceSnapshotState
deriving DecidableEq

/-- Freshly created shared state (lines 273-278). -/
def emptySharedState : WorkspaceSharedState :=
  { elements := [], spriteMetrics := [], workspaceSnapshots := [] }

/-- Member record `ClientState` (lines 9-17); the socket is identified by
a connection number and its skip-cleanup flag lives in the server state. -/
structure ClientState : Type where
  id : String
  username : String
  role : UserRole
  conn : Nat
  permissions : PermissionSet
  isOwner : Bool
  coords : Option (Int × Int)
deriving DecidableEq

/-- Lock entry of `workspaceLocks` (line 29). -/
structure LockInfo : Type where
  lockedBy : String
  version : Nat
deriving DecidableEq

/-- The module-level mutable state of the server: the workspace maps, the
cleanup timers (value = configured delay), the permission manager, the
consumed-ticket map (jti to exp seconds), the sockets flagged with
`__skipCleanup`, and the configured retention interval. -/
structure ServerState : Type where
  workspaces : Assoc (Assoc ClientState)
  workspaceLocks : Assoc (Assoc LockInfo)
  sharedState : Assoc WorkspaceSharedState
  cleanupTimers : Assoc Int
  perms : PermMgr
  consumedTicketIds : Assoc Int
  skipFlags : List Nat
  retentionMs : Int
deriving DecidableEq

/-- Per-connection handler state (`userId`, `workspaceId`,
`isAuthenticated` closure variables, lines 358-360). -/
structure ConnState : Type where
  userId : Option String
  workspaceId : Option String
  isAuthenticated : Bool
deriving DecidableEq

/-- Initial per-connection state. -/
def ConnState.fresh : ConnState :=
  { userId := none, workspaceId := none, isAuthenticated := false }

/-- Constant `EMPTY_WORKSPACE_RETENTION_MS` (lines 78-82): the parsed
environment value when finite and non-negative (floor folded into the
integer model), else the 120000 ms default. -/
def emptyWorkspaceRetentionMs (envRaw : Option Int) : Int :=
  match envRaw with
  | some n => if 0 ≤ n then n else 120000
  | none => 120000

/-- Pruner `pruneConsumedTicketIds` (lines 116-122): drop entries whose
expiry is not in the future. -/
def pruneConsumedTicketIds (m : Assoc Int) (nowSeconds : Int) : Assoc Int :=
  m.filter (fun kv => decide (nowSeconds < kv.2))

/-- Accessor for a workspace shared-state container, defaulting to the
empty container (used to state atomicity results). -/
def sharedOf (st : ServerState) (workspaceId : String) : WorkspaceSharedState :=
  (Assoc.find? st.sharedState workspaceId).getD emptySharedState

/-- Initializer `ensureWorkspaceSharedState` (lines 272-282). -/
def ensureSharedState (st : ServerState) (workspaceId : String) : ServerState :=
  if (Assoc.find? st.sharedState workspaceId).isSome then st
  else { st with sharedState := Assoc.set st.sharedState workspaceId emptySharedState }

/-- Canceller `clearWorkspaceCleanupTimer` (lines 284-289). -/
def clearWorkspaceCleanupTimer (st : ServerState) (workspaceId : String) : ServerState :=
  { st with cleanupTimers := Assoc.erase st.cleanupTimers workspaceId }

/-- Destructor `deleteWorkspaceState` (lines 291-297): clears the timer
and destroys the member, lock, shared-state, and permission maps. -/
def deleteWorkspaceState (st : ServerState) (workspaceId : String) : ServerState :=
  { st with
    cleanupTimers := Assoc.erase st.cleanupTimers workspaceId
    workspaces := Assoc.erase st.workspaces workspaceId
    workspaceLocks := Assoc.erase st.workspaceLocks workspaceId
    sharedState := Assoc.erase st.sharedState workspaceId
    perms := deleteWorkspacePerms st.perms workspaceId }

/-- Scheduler `scheduleWorkspaceCleanup` (lines 299-310): replaces any
existing timer with a single-shot timer of the configured duration. -/
def scheduleWorkspaceCleanup (st : ServerState) (workspaceId : String) : ServerState :=
  let st := clearWorkspaceCleanupTimer st workspaceId
  { st with cleanupTimers := Assoc.set st.cleanupTimers workspaceId st.retentionMs }

/-- Firing of the cleanup timer (the `setTimeout` callback, lines
301-308): a no-op unless the timer is still armed; keeps the workspace
when membership became non-empty, else destroys all its maps. -/
def cleanupTimerFire (st : ServerState) (workspaceId : String) : ServerState :=
  if ¬ Assoc.contains st.cleanupTimers workspaceId then st
  else
    match Assoc.find? st.workspaces workspaceId with
    | some workspace =>
      if workspace.length > 0 then
        { st with cleanupTimers := Assoc.erase st.cleanupTimers workspaceId }
      else deleteWorkspaceState st workspaceId
    | none => deleteWorkspaceState st workspaceId

/-! ## Join-ticket verification (`src/server.ts`, lines 84-155) -/

/-- Raw JWT payload after the jose library has checked the HMAC
signature, the `colab-backend` audience, and (per RFC 7519 handling in
jose) that `exp` is in the future; fields are dynamic values. -/
structure RawTicketPayload : Type where
  sub : JVal
  workspaceId : JVal
  username : JVal
  role : JVal
  jti : JVal
  exp : JVal
deriving DecidableEq

/-- Validated claims returned by `verifyJoinTicket`. -/
structure TicketClaims : Type where
  userId : String
  workspaceId : String
  username : String
  role : UserRole
  ticketId : String
  expiresAt : Int
deriving DecidableEq

/-- Verifier `verifyJoinTicket` (lines 124-155). The cryptographic
check performed by `jwtVerify` is modelled by the `payload` argument:
`none` when the signature, audience, or expiry check fails (or no secret
is configured), `some` carrying the decoded payload otherwise. -/
def verifyJoinTicket (payload : Option RawTicketPayload) : Option TicketClaims :=
  match payload with
  | none => none
  | some p =>
    let userId := normalizeUserId p.sub
    let workspaceId := normalizeWorkspaceId p.workspaceId
    let username :=
      match p.username with
      | JVal.jstr s => strTake (strTrim s) 64
      | _ => ""
    let role := normalizeUserRole p.role
    let ticketId :=
      match p.jti with
      | JVal.jstr s => strTrim s
      | _ => ""
    let expiresAt :=
      match p.exp with
      | JVal.jnum n => n
      | _ => 0
    if userId = "" ∨ workspaceId = "" ∨ ticketId = "" ∨ expiresAt = 0 then none
    else some { userId, workspaceId, username, role, ticketId, expiresAt }

/-! ## Outbound frames and events -/

/-- Payload of `sharedStateToPayload` (lines 339-349). -/
structure SharedStatePayload : Type where
  elements : List WorkspaceElementState
  spriteMetrics : List WorkspaceSpriteMetrics
  workspaceSnapshots : List WorkspaceSnapshotState
deriving DecidableEq

/-- Serializer `sharedStateToPayload`. -/
def sharedStateToPayload (state : WorkspaceSharedState) : SharedStatePayload :=
  { elements := Assoc.values state.elements
    spriteMetrics := Assoc.values state.spriteMetrics
    workspaceSnapshots := Assoc.values state.workspaceSnapshots }

/-- Per-user summary in the `auth_success` reply (lines 472-478). -/
structure UserSummary : Type where
  userId : String
  username : String
  role : UserRole
  permissions : PermissionSet
  isOwner : Bool
deriving DecidableEq

/-- Outbound JSON frames. Optional fields model properties the source
sometimes leaves `undefined` or omits. -/
inductive Frame : Type where
  | errorMsg (message : String)
  | conflict (entityType entityId : String) (ifMatch currentEtag : Option String)
      (firstEditedBy : Option String) (firstEditedAt : Option Int)
  | authSuccess (userId workspaceId : String) (permissions : PermissionSet)
      (role : UserRole) (isOwner : Bool) (sharedState : SharedStatePayload)
      (users : List UserSummary)
  | sharedStateReply (sharedState : SharedStatePayload)
  | permissionsUpdated (permissions : PermissionSet) (source : String) (mode : Option JVal)
  | userJoined (userId username : String) (role : UserRole)
      (permissions : PermissionSet) (isOwner : Bool) (coords : Int × Int)
  | userUpdated (userId : String) (permissions : Option PermissionSet)
      (username : Option String) (role : Option UserRole) (isOwner : Option Bool)
  | userLeft (userId : String)
  | lockGranted (elementId : String) (version : Nat)
  | lockDenied (elementId : String) (lockedBy : Option String) (reason : Option String)
  | elementLocked (elementId lockedBy : String) (version : Nat)
  | elementUnlocked (elementId : String) (finalPosition : Option (Int × Int))
  | coordsUpdate (userId : String) (coords : Int × Int)
  | elementDrag (userId elementId elementType : String) (position : JVal) (isDragging : Bool)
  | blockMove (userId blockId : String) (position parentId attachedTo : JVal)
      (etag : Option String) (version : Option Nat)
      (firstEditedBy : Option String) (firstEditedAt : Option Int)
  | blockFocus (userId blockId : String) (focused : Bool)
  | spriteUpdate (userId spriteId : String) (x y rotation size : JVal)
      (visible : Option Bool) (direction : JVal) (name rotationStyle : Option String)
      (currentCostume volume layerOrder : JVal) (etag : Option String)
      (version : Option Nat) (firstEditedBy : Option String) (firstEditedAt : Option Int)
  | stackMove (userId : String) (stackId blocks position : JVal)
  | actionMsg (userId : String) (payload : JVal)
  | elementCreated (elementType elementId : String) (elementData : JVal)
      (createdBy : String) (etag : Option String) (version : Option Nat)
      (firstEditedBy : Option String) (firstEditedAt : Option Int)
      (spriteMetricsEtag : Option String) (spriteMetricsVersion : Option Nat)
      (spriteMetricsFirstEditedBy : Option String) (spriteMetricsFirstEditedAt : Option Int)
  | elementDeleted (elementId elementType deletedBy : String)
      (deletedFromEtag : Option String) (firstEditedBy : Option String)
      (firstEditedAt : Option Int)
  | workspaceSnapshot (userId spriteId serializedJson : String) (version : Nat)
      (etag : String) (firstEditedBy : String) (firstEditedAt : Int)
deriving DecidableEq

/-- Observable transport effects: a direct `ws.send` to one socket, a
socket close with an application code, or a `broadcastToWorkspace` fan-out
(sender excluded when present). -/
inductive OutEvent : Type where
  | reply (conn : Nat) (frame : Frame)
  | closeSock (conn : Nat) (code : Nat) (reason : String)
  | broadcast (workspaceId : String) (senderId : Option String) (frame : Frame)
deriving DecidableEq

/-- Conflict emitter `sendEtagConflict` (lines 247-270). -/
def sendEtagConflict (conn : Nat) (entityType entityId : String)
    (ifMatch currentEtag : Option String) (firstEditedBy : Option String)
    (firstEditedAt : Option Int) : OutEvent :=
  OutEvent.reply conn
    (Frame.conflict entityType entityId ifMatch currentEtag firstEditedBy firstEditedAt)

/-! ## The auth case (`src/server.ts`, lines 375-504) -/

/-- Handler of the `auth` case. `payload` is the decoded JWT payload when
the jose verification succeeds (see `verifyJoinTicket`); `nowMs` is
`Date.now()`. Returns the updated server state, the updated connection
state, and the emitted events in order. -/
def handleAuth (st : ServerState) (cs : ConnState) (conn : Nat) (data : JVal)
    (payload : Option RawTicketPayload) (nowMs : Int) :
    ServerState × ConnState × List OutEvent :=
  let token := strTrim (asStringOr (jget data "token") "")
  if token = "" then
    (st, cs, [OutEvent.reply conn (Frame.errorMsg "Missing join ticket"),
              OutEvent.closeSock conn 4003 "Missing join ticket"])
  else
    match verifyJoinTicket payload with
    | none =>
      (st, cs, [OutEvent.reply conn (Frame.errorMsg "Invalid or expired join ticket"),
                OutEvent.closeSock conn 4003 "Invalid join ticket"])
    | some tc =>
      let consumed := pruneConsumedTicketIds st.consumedTicketIds (nowMs / 1000)
      let st := { st with consumedTicketIds := consumed }
      if Assoc.contains consumed tc.ticketId then
        (st, cs, [OutEvent.reply conn (Frame.errorMsg "Join ticket has already been used"),
                  OutEvent.closeSock conn 4003 "Replay detected"])
      else
        let providedWorkspace := normalizeWorkspaceId (jget data "workspace")
        if providedWorkspace ≠ "" ∧ providedWorkspace ≠ tc.workspaceId then
          (st, cs, [OutEvent.reply conn (Frame.errorMsg "Workspace mismatch in join ticket"),
                    OutEvent.closeSock conn 4003 "Workspace mismatch"])
        else
          let providedUserId := normalizeUserId (jget data "userId")
          if providedUserId ≠ "" ∧ providedUserId ≠ tc.userId then
            (st, cs, [OutEvent.reply conn (Frame.errorMsg "User mismatch in join ticket"),
                      OutEvent.closeSock conn 4003 "User mismatch"])
          else
            let st := { st with
              consumedTicketIds := Assoc.set st.consumedTicketIds tc.ticketId tc.expiresAt }
            let cs : ConnState :=
              { userId := some tc.userId, workspaceId := some tc.workspaceId,
                isAuthenticated := true }
            let st := clearWorkspaceCleanupTimer st tc.workspaceId
            let st :=
              if Assoc.contains st.workspaces tc.workspaceId then st
              else
                { st with
                  workspaces := Assoc.set st.workspaces tc.workspaceId []
                  workspaceLocks := Assoc.set st.workspaceLocks tc.workspaceId []
                  perms := initializeWorkspace st.perms tc.workspaceId }
            let st := ensureSharedState st tc.workspaceId
            let workspaceUsers := (Assoc.find? st.workspaces tc.workspaceId).getD []
            let existingUser := Assoc.find? workspaceUsers tc.userId
            let isReplacement := existingUser.isSome
            let closeEvents :=
              match existingUser with
              | some eu =>
                if eu.conn ≠ conn then
                  [OutEvent.closeSock eu.conn 4001 "Reconnected with same userId"]
                else []
              | none => []
            let st :=
              match existingUser with
              | some eu =>
                if eu.conn ≠ conn then { st with skipFlags := eu.conn :: st.skipFlags } else st
              | none => st
            let usernameFromClient := strTake (strTrim (asStringOr (jget data "username") "")) 64
            let username :=
              if tc.username ≠ "" then tc.username
              else if usernameFromClient ≠ "" then usernameFromClient
              else "User"
            let role := tc.role
            let st :=
              match role with
              | UserRole.ADMIN =>
                { st with perms := setUserAsAdmin st.perms tc.workspaceId tc.userId }
              | UserRole.TEACHER =>
                { st with perms := setUserAsTeacher st.perms tc.workspaceId tc.userId }
              | _ =>
                { st with perms := clearUserPermissions st.perms tc.workspaceId tc.userId }
            let isOwner := role = UserRole.ADMIN
            let user : ClientState :=
              { id := tc.userId, username := username, role := role, conn := conn
                permissions := getUserPermissions st.perms tc.workspaceId tc.userId
                isOwner := isOwner, coords := none }
            let newUsers := Assoc.set workspaceUsers tc.userId user
            let st := { st with workspaces := Assoc.set st.workspaces tc.workspaceId newUsers }
            let authReply :=
              OutEvent.reply conn
                (Frame.authSuccess tc.userId tc.workspaceId user.permissions role isOwner
                  (sharedStateToPayload (sharedOf st tc.workspaceId))
                  ((Assoc.values newUsers).map (fun u =>
                    { userId := u.id, username := u.username, role := u.role,
                      permissions := u.permissions, isOwner := u.isOwner })))
            let joinBroadcast :=
              if isReplacement then
                OutEvent.broadcast tc.workspaceId (some tc.userId)
                  (Frame.userUpdated tc.userId (some user.permissions) (some user.username)
                    (some user.role) (some user.isOwner))
              else
                OutEvent.broadcast tc.workspaceId (some tc.userId)
                  (Frame.userJoined tc.userId user.username user.role user.permissions
                    user.isOwner (0, 0))
            (st, cs, closeEvents ++ [authReply, joinBroadcast])

/-! ## The other switch cases (`src/server.ts`, lines 506-757)

Each case returns the updated state, its events, and a flag that is true
when the case executed a `return` statement (skipping the post-switch
code) and false when it fell through via `break`. -/

/-- Guard shared by the session cases: `!isAuthenticated || !workspaceId
|| !userId` exits the message handler silently. -/
def withSession (st : ServerState) (cs : ConnState)
    (body : String → String → ServerState × List OutEvent × Bool) :
    ServerState × List OutEvent × Bool :=
  match cs.isAuthenticated, cs.workspaceId, cs.userId with
  | true, some w, some u => body w u
  | _, _, _ => (st, [], true)

/-- Case `request_shared_state` (lines 506-515); note its guard omits
`userId`. -/
def caseRequestSharedState (st : ServerState) (cs : ConnState) (conn : Nat) :
    ServerState × List OutEvent × Bool :=
  match cs.isAuthenticated, cs.workspaceId with
  | true, some w =>
    let st := ensureSharedState st w
    (st, [OutEvent.reply conn (Frame.sharedStateReply (sharedStateToPayload (sharedOf st w)))],
     false)
  | _, _ => (st, [], true)

/-- Case `request_teacher_role` (lines 517-552). -/
def caseRequestTeacherRole (st : ServerState) (cs : ConnState) (conn : Nat) :
    ServerState × List OutEvent × Bool :=
  withSession st cs (fun w u =>
    let currentClient :=
      match Assoc.find? st.workspaces w with
      | some m => Assoc.find? m u
      | none => none
    match currentClient with
    | none => (st, [], true)
    | some client =>
      if client.role ≠ UserRole.ADMIN ∧ client.role ≠ UserRole.TEACHER then
        (st, [OutEvent.reply conn (Frame.errorMsg "Role escalation denied")], true)
      else
        let st :=
          if client.role = UserRole.ADMIN then
            { st with perms := setUserAsAdmin st.perms w u }
          else { st with perms := setUserAsTeacher st.perms w u }
        let updatedPerms := getUserPermissions st.perms w u
        let st :=
          match Assoc.find? st.workspaces w with
          | some m =>
            match Assoc.find? m u with
            | some cl =>
              { st with workspaces := Assoc.set st.workspaces w (Assoc.set m u { cl with permissions := updatedPerms }) }
            | none => st
          | none => st
        (st,
         [OutEvent.reply conn (Frame.permissionsUpdated updatedPerms "role_change" none),
          OutEvent.broadcast w (some u)
            (Frame.userUpdated u (some updatedPerms) none (some client.role) (some client.isOwner))],
         false))

/-- Case `update_username` (lines 554-585). -/
def caseUpdateUsername (st : ServerState) (cs : ConnState) (conn : Nat) (data : JVal) :
    ServerState × List OutEvent × Bool :=
  withSession st cs (fun w u =>
    let nextUsername := strTake (strTrim (asStringOr (jget data "username") "")) 64
    if nextUsername = "" then
      (st, [OutEvent.reply conn (Frame.errorMsg "Username is required")], true)
    else
      match Assoc.find? st.workspaces w with
      | none => (st, [], true)
      | some m =>
        match Assoc.find? m u with
        | none => (st, [], true)
        | some client =>
          let updated := Assoc.set st.workspaces w (Assoc.set m u { client with username := nextUsername })
          let st := { st with workspaces := updated }
          (st,
           [OutEvent.reply conn (Frame.userUpdated u none (some nextUsername) none none),
            OutEvent.broadcast w (some u)
              (Frame.userUpdated u none (some nextUsername) (some client.role) (some client.isOwner))],
           false))

/-- Fan-out step shared by `update_global_permission` and
`apply_preset_mode`: recompute and push effective permissions for every
member, in map order. -/
def pushPermissionsToMembers (pm : PermMgr) (w : String) (wsUsers : Assoc ClientState)
    (source : String) (mode : Option JVal) (alsoBroadcast : Bool) :
    Assoc ClientState × List OutEvent :=
  wsUsers.foldl
    (fun acc entry =>
      let cl := entry.2
      let p := getUserPermissions pm w cl.id
      (Assoc.set acc.1 entry.1 { cl with permissions := p },
       acc.2 ++
         [OutEvent.reply cl.conn (Frame.permissionsUpdated p source mode)] ++
         (if alsoBroadcast then
            [OutEvent.broadcast w none
              (Frame.userUpdated cl.id (some p) none (some cl.role) (some cl.isOwner))]
          else [])))
    (wsUsers, [])

/-- Case `update_global_permission` (lines 587-620). -/
def caseUpdateGlobalPermission (st : ServerState) (cs : ConnState) (data : JVal) :
    ServerState × List OutEvent × Bool :=
  withSession st cs (fun w u =>
    if ¬ hasPermission st.perms w u PermissionKey.canChangePermissions then (st, [], true)
    else
      let pm := (updateGlobalPermission st.perms w (jget data "permission") (jget data "value")).1
      let st := { st with perms := pm }
      match Assoc.find? st.workspaces w with
      | none => (st, [], false)
      | some wsUsers =>
        let result := pushPermissionsToMembers pm w wsUsers "global_update" none true
        ({ st with workspaces := Assoc.set st.workspaces w result.1 }, result.2, false))

/-- Case `update_user_permission` (lines 622-657). -/
def caseUpdateUserPermission (st : ServerState) (cs : ConnState) (data : JVal) :
    ServerState × List OutEvent × Bool :=
  withSession st cs (fun w u =>
    if ¬ hasPermission st.perms w u PermissionKey.canChangePermissions then (st, [], true)
    else
      let targetUserId := asStringOr (jget data "targetUserId") ""
      if targetUserId = "" then (st, [], true)
      else
        let pm :=
          (updateUserPermission st.perms w targetUserId
            (jget data "permission") (jget data "value")).1
        let st := { st with perms := pm }
        match Assoc.find? st.workspaces w with
        | none => (st, [], false)
        | some m =>
          match Assoc.find? m targetUserId with
          | none => (st, [], false)
          | some targetClient =>
            let p := getUserPermissions pm w targetUserId
            let updated :=
              Assoc.set st.workspaces w
                (Assoc.set m targetUserId { targetClient with permissions := p })
            let st := { st with workspaces := updated }
            (st,
             [OutEvent.reply targetClient.conn (Frame.permissionsUpdated p "user_update" none),
              OutEvent.broadcast w none
                (Frame.userUpdated targetUserId (some p) none (some targetClient.role)
                  (some targetClient.isOwner))],
             false))

/-- Case `apply_preset_mode` (lines 659-690). -/
def caseApplyPresetMode (st : ServerState) (cs : ConnState) (data : JVal) :
    ServerState × List OutEvent × Bool :=
  withSession st cs (fun w u =>
    if ¬ hasPermission st.perms w u PermissionKey.canChangePermissions then (st, [], true)
    else
      let mode := jget data "mode"
      let pm := (applyPresetMode st.perms w mode).1
      let st := { st with perms := pm }
      match Assoc.find? st.workspaces w with
      | none => (st, [], false)
      | some wsUsers =>
        let result := pushPermissionsToMembers pm w wsUsers "preset_update" (some mode) false
        ({ st with workspaces := Assoc.set st.workspaces w result.1 }, result.2, false))

/-- Case `request_lock` (lines 692-731). -/
def caseRequestLock (st : ServerState) (cs : ConnState) (conn : Nat) (data : JVal) :
    ServerState × List OutEvent × Bool :=
  withSession st cs (fun w u =>
    let elementId := asStringOr (jget data "elementId") ""
    let elementType := asStringOr (jget data "elementType") "block"
    match Assoc.find? st.workspaceLocks w with
    | none => (st, [], true)
    | some locks =>
      if elementId = "" then (st, [], true)
      else
        let permKey :=
          if elementType = "sprite" then PermissionKey.canEditSprites
          else if elementType = "variable" then PermissionKey.canEditVariables
          else PermissionKey.canEditBlocks
        if ¬ hasPermission st.perms w u permKey then
          (st, [OutEvent.reply conn (Frame.lockDenied elementId none (some "forbidden"))], true)
        else
          let existing := Assoc.find? locks elementId
          match existing with
          | some l =>
            if l.lockedBy ≠ "" ∧ l.lockedBy ≠ u then
              (st, [OutEvent.reply conn (Frame.lockDenied elementId (some l.lockedBy) none)], true)
            else
              let version := (if l.version = 0 then 0 else l.version) + 1
              let updated :=
                Assoc.set st.workspaceLocks w
                  (Assoc.set locks elementId { lockedBy := u, version := version })
              let st := { st with workspaceLocks := updated }
              (st,
               [OutEvent.reply conn (Frame.lockGranted elementId version),
                OutEvent.broadcast w (some u) (Frame.elementLocked elementId u version)],
               false)
          | none =>
            let version := 1
            let updated :=
              Assoc.set st.workspaceLocks w
                (Assoc.set locks elementId { lockedBy := u, version := version })
            let st := { st with workspaceLocks := updated }
            (st,
             [OutEvent.reply conn (Frame.lockGranted elementId version),
              OutEvent.broadcast w (some u) (Frame.elementLocked elementId u version)],
             false))

/-- Case `release_lock` (lines 733-757). The NaN coordinates the `Number`
coercion could produce are folded to 0 (the protocol sends numbers). -/
def caseReleaseLock (st : ServerState) (cs : ConnState) (data : JVal) :
    ServerState × List OutEvent × Bool :=
  withSession st cs (fun w u =>
    let elementId := asStringOr (jget data "elementId") ""
    let fp := jget data "finalPosition"
    let finalPosition : Option (Int × Int) :=
      if isRecord fp then
        some ((jsToNumber (coalesce (jget fp "x") (JVal.jnum 0))).getD 0,
              (jsToNumber (coalesce (jget fp "y") (JVal.jnum 0))).getD 0)
      else none
    match Assoc.find? st.workspaceLocks w with
    | none => (st, [], true)
    | some locks =>
      if elementId = "" then (st, [], true)
      else
        match Assoc.find? locks elementId with
        | some l =>
          if l.lockedBy = u then
            ({ st with workspaceLocks := Assoc.set st.workspaceLocks w (Assoc.erase locks elementId) },
             [OutEvent.broadcast w (some u) (Frame.elementUnlocked elementId finalPosition)],
             false)
          else (st, [], false)
        | none => (st, [], false))

/-! ## The post-switch fall-through chain (`src/server.ts`, lines 767-1208) -/

/-- Handler of `update_coords` (lines 767-781); NaN coordinates fold to 0
as in `caseReleaseLock`. -/
def handleUpdateCoords (st : ServerState) (w u : String) (data : JVal) :
    ServerState × List OutEvent :=
  let c := jget data "coords"
  let cx := if isRecord c then jget c "x" else JVal.jundef
  let cy := if isRecord c then jget c "y" else JVal.jundef
  let x := (jsToNumber (coalesce cx (coalesce (jget data "x") (JVal.jnum 0)))).getD 0
  let y := (jsToNumber (coalesce cy (coalesce (jget data "y") (JVal.jnum 0)))).getD 0
  match Assoc.find? st.workspaces w with
  | none => (st, [])
  | some workspace =>
    match Assoc.find? workspace u with
    | none => (st, [])
    | some cl =>
      let updated := Assoc.set st.workspaces w (Assoc.set workspace u { cl with coords := some (x, y) })
      ({ st with workspaces := updated },
       [OutEvent.broadcast w (some u) (Frame.coordsUpdate u (x, y))])

/-- Handler of `element_drag` (lines 783-797): transient, no state write. -/
def handleElementDrag (st : ServerState) (w u : String) (data : JVal) :
    ServerState × List OutEvent :=
  let elementId := asStringOr (jget data "elementId") ""
  let elementType := asStringOr (jget data "elementType") ""
  let position := if isRecord (jget data "position") then jget data "position" else JVal.jnull
  let isDragging := jsTruthy (jget data "isDragging")
  (st, [OutEvent.broadcast w (some u) (Frame.elementDrag u elementId elementType position isDragging)])

/-- Lock-holder discipline shared by `block_move` and `sprite_update`
(lines 807-809 and 879-881): true when a lock for the element exists and
belongs to someone else. -/
def lockHeldByOther (st : ServerState) (w u elementId : String) : Bool :=
  match (match Assoc.find? st.workspaceLocks w with
         | some locks => Assoc.find? locks elementId
         | none => none) with
  | some l => decide (l.lockedBy ≠ u)
  | none => false

/-- Post-gate write of `block_move` (lines 829-863): version bump, state
write, broadcast. `st` already carries the ensured shared state. -/
def blockMoveCommit (st : ServerState) (w u blockId : String) (data : JVal)
    (nowMs : Int) : ServerState × List OutEvent :=
  let position := jget data "position"
  let parentId := jget data "parentId"
  let attachedTo := jget data "attachedTo"
  let state := sharedOf st w
  let elementKey := "block:" ++ blockId
  let existingElement := Assoc.find? state.elements elementKey
  let version := (match existingElement with | some e => e.version | none => 0) + 1
  let etag := buildEntityEtag elementKey version
  let firstEditedBy := match existingElement with | some e => e.firstEditedBy | none => u
  let firstEditedAt := match existingElement with | some e => e.firstEditedAt | none => nowMs
  let newElement : WorkspaceElementState :=
    { elementType := "block", elementId := blockId
      elementData := jobjOf
        [("id", JVal.jstr blockId), ("position", position),
         ("parentId", parentId), ("attachedTo", attachedTo)]
      version := version, etag := etag
      firstEditedBy := firstEditedBy, firstEditedAt := firstEditedAt
      updatedBy := u, updatedAt := nowMs }
  let updated :=
    Assoc.set st.sharedState w
      { state with elements := Assoc.set state.elements elementKey newElement }
  let st := { st with sharedState := updated }
  (st, [OutEvent.broadcast w (some u)
    (Frame.blockMove u blockId position parentId attachedTo (some etag) (some version)
      (some firstEditedBy) (some firstEditedAt))])

/-- Handler of `block_move` (lines 799-864). -/
def handleBlockMove (st : ServerState) (w u : String) (conn : Nat) (data : JVal)
    (nowMs : Int) : ServerState × List OutEvent :=
  if ¬ hasPermission st.perms w u PermissionKey.canEditBlocks then (st, [])
  else
    let blockId := asStringOr (jget data "blockId") ""
    let position := jget data "position"
    let parentId := jget data "parentId"
    let attachedTo := jget data "attachedTo"
    if lockHeldByOther st w u blockId then (st, [])
    else if blockId = "" then
      (st, [OutEvent.broadcast w (some u)
        (Frame.blockMove u blockId position parentId attachedTo none none none none)])
    else
      let st := ensureSharedState st w
      let state := sharedOf st w
      let elementKey := "block:" ++ blockId
      let existingElement := Assoc.find? state.elements elementKey
      let submittedIfMatch := resolveIfMatch data
      if ¬ ifMatchSatisfied submittedIfMatch (existingElement.map (·.etag)) then
        (st, [sendEtagConflict conn "block" blockId submittedIfMatch
          (existingElement.map (·.etag)) (existingElement.map (·.firstEditedBy))
          (existingElement.map (·.firstEditedAt))])
      else blockMoveCommit st w u blockId data nowMs

/-- Handler of `block_focus` (lines 866-875). -/
def handleBlockFocus (st : ServerState) (w u : String) (data : JVal) :
    ServerState × List OutEvent :=
  let blockId := strTrim (asStringOr (jget data "blockId") "")
  let focused := jsTruthy (jget data "focused") && blockId ≠ ""
  (st, [OutEvent.broadcast w (some u) (Frame.blockFocus u blockId focused)])

/-- Sprite-element merge step of `sprite_update` (lines 950-977): when a
sprite element exists with a record payload, fold the submitted fields
into it and bump its version. Reads the shared state of the workspace
(which already carries the updated metrics). -/
def spriteElementMerge (st : ServerState) (w u spriteId : String) (data : JVal)
    (nowMs : Int) : ServerState :=
  let x := normalizeFiniteNumber (jget data "x")
  let y := normalizeFiniteNumber (jget data "y")
  let rotation := normalizeFiniteNumber (jget data "rotation")
  let size := normalizeFiniteNumber (jget data "size")
  let visible := match jget data "visible" with | JVal.jbool b => some b | _ => none
  let direction := normalizeFiniteNumber (jget data "direction")
  let name := match jget data "name" with | JVal.jstr s => some s | _ => none
  let rotationStyle := match jget data "rotationStyle" with | JVal.jstr s => some s | _ => none
  let currentCostume := normalizeFiniteNumber (jget data "currentCostume")
  let volume := normalizeFiniteNumber (jget data "volume")
  let layerOrder := normalizeFiniteNumber (jget data "layerOrder")
  let state := sharedOf st w
  let existingSprite := Assoc.find? state.elements ("sprite:" ++ spriteId)
  match existingSprite with
  | some es =>
    if isRecord es.elementData then
      let d := es.elementData
      let d := match x with | some n => jset d "x" (JVal.jnum n) | none => d
      let d := match y with | some n => jset d "y" (JVal.jnum n) | none => d
      let d := match rotation with | some n => jset d "rotation" (JVal.jnum n) | none => d
      let d := match size with | some n => jset d "size" (JVal.jnum n) | none => d
      let d := match visible with | some b => jset d "visible" (JVal.jbool b) | none => d
      let d := match direction with | some n => jset d "direction" (JVal.jnum n) | none => d
      let d := match name with | some s => jset d "name" (JVal.jstr s) | none => d
      let d := match rotationStyle with
               | some s => jset d "rotationStyle" (JVal.jstr s)
               | none => d
      let d := match currentCostume with
               | some n => jset d "currentCostume" (JVal.jnum n)
               | none => d
      let d := match volume with | some n => jset d "volume" (JVal.jnum n) | none => d
      let d := match layerOrder with
               | some n => jset d "layerOrder" (JVal.jnum n)
               | none => d
      let elementVersion := es.version + 1
      let updatedElement : WorkspaceElementState :=
        { es with
          elementData := d
          version := elementVersion
          etag := buildEntityEtag ("sprite:" ++ spriteId) elementVersion
          updatedBy := u, updatedAt := nowMs }
      let state := { state with
        elements := Assoc.set state.elements ("sprite:" ++ spriteId) updatedElement }
      { st with sharedState := Assoc.set st.sharedState w state }
    else st
  | none => st

/-- Post-gate write of `sprite_update` (lines 913-999): metrics bump,
optional sprite-element merge, broadcast. `st` already carries the ensured
shared state. -/
def spriteUpdateCommit (st : ServerState) (w u spriteId : String) (data : JVal)
    (nowMs : Int) : ServerState × List OutEvent :=
  let x := normalizeFiniteNumber (jget data "x")
  let y := normalizeFiniteNumber (jget data "y")
  let rotation := normalizeFiniteNumber (jget data "rotation")
  let size := normalizeFiniteNumber (jget data "size")
  let visible := match jget data "visible" with | JVal.jbool b => some b | _ => none
  let direction := normalizeFiniteNumber (jget data "direction")
  let name := match jget data "name" with | JVal.jstr s => some s | _ => none
  let rotationStyle := match jget data "rotationStyle" with | JVal.jstr s => some s | _ => none
  let currentCostume := normalizeFiniteNumber (jget data "currentCostume")
  let volume := normalizeFiniteNumber (jget data "volume")
  let layerOrder := normalizeFiniteNumber (jget data "layerOrder")
  let jnumOr := fun (o : Option Int) (k : String) =>
    match o with | some n => JVal.jnum n | none => jget data k
  let state := sharedOf st w
  let previousMetrics := Assoc.find? state.spriteMetrics spriteId
  let existingSpriteElement := Assoc.find? state.elements ("sprite:" ++ spriteId)
  let baseVersion :=
    max (match previousMetrics with | some p => p.version | none => 0)
        (match existingSpriteElement with | some e => e.version | none => 0)
  let version := baseVersion + 1
  let etag := buildEntityEtag ("sprite-metrics:" ++ spriteId) version
  let firstEditedBy :=
    match previousMetrics with
    | some p => p.firstEditedBy
    | none =>
      match existingSpriteElement with
      | some e => e.firstEditedBy
      | none => u
  let firstEditedAt :=
    match previousMetrics with
    | some p => p.firstEditedAt
    | none =>
      match existingSpriteElement with
      | some e => e.firstEditedAt
      | none => nowMs
  let nextMetrics : WorkspaceSpriteMetrics :=
    { spriteId := spriteId
      x := match x with
           | some n => n
           | none => match previousMetrics with | some p => p.x | none => 0
      y := match y with
           | some n => n
           | none => match previousMetrics with | some p => p.y | none => 0
      rotation := match rotation with
                  | some r => some r
                  | none => match previousMetrics with | some p => p.rotation | none => none
      size := match size with
              | some s => some s
              | none => match previousMetrics with | some p => p.size | none => none
      visible := match visible with
                 | some b => some b
                 | none => match previousMetrics with | some p => p.visible | none => none
      version := version, etag := etag
      firstEditedBy := firstEditedBy, firstEditedAt := firstEditedAt
      updatedBy := u, updatedAt := nowMs }
  let state := { state with spriteMetrics := Assoc.set state.spriteMetrics spriteId nextMetrics }
  let st := { st with sharedState := Assoc.set st.sharedState w state }
  let st := spriteElementMerge st w u spriteId data nowMs
  (st, [OutEvent.broadcast w (some u)
    (Frame.spriteUpdate u spriteId (jnumOr x "x") (jnumOr y "y") (jnumOr rotation "rotation")
      (jnumOr size "size") visible (jnumOr direction "direction") name rotationStyle
      (jnumOr currentCostume "currentCostume") (jnumOr volume "volume")
      (jnumOr layerOrder "layerOrder") (some etag) (some version)
      (some firstEditedBy) (some firstEditedAt))])

/-- Handler of `sprite_update` (lines 877-999). -/
def handleSpriteUpdate (st : ServerState) (w u : String) (conn : Nat) (data : JVal)
    (nowMs : Int) : ServerState × List OutEvent :=
  let spriteId := asStringOr (jget data "spriteId") ""
  if lockHeldByOther st w u spriteId then (st, [])
  else
    let x := normalizeFiniteNumber (jget data "x")
    let y := normalizeFiniteNumber (jget data "y")
    let rotation := normalizeFiniteNumber (jget data "rotation")
    let size := normalizeFiniteNumber (jget data "size")
    let visible := match jget data "visible" with | JVal.jbool b => some b | _ => none
    let direction := normalizeFiniteNumber (jget data "direction")
    let name := match jget data "name" with | JVal.jstr s => some s | _ => none
    let rotationStyle := match jget data "rotationStyle" with | JVal.jstr s => some s | _ => none
    let currentCostume := normalizeFiniteNumber (jget data "currentCostume")
    let volume := normalizeFiniteNumber (jget data "volume")
    let layerOrder := normalizeFiniteNumber (jget data "layerOrder")
    let jnumOr := fun (o : Option Int) (k : String) =>
      match o with | some n => JVal.jnum n | none => jget data k
    if spriteId = "" then
      (st, [OutEvent.broadcast w (some u)
        (Frame.spriteUpdate u spriteId (jnumOr x "x") (jnumOr y "y") (jnumOr rotation "rotation")
          (jnumOr size "size") visible (jnumOr direction "direction") name rotationStyle
          (jnumOr currentCostume "currentCostume") (jnumOr volume "volume")
          (jnumOr layerOrder "layerOrder") none none none none)])
    else
      let st := ensureSharedState st w
      let state := sharedOf st w
      let previousMetrics := Assoc.find? state.spriteMetrics spriteId
      let existingSpriteElement := Assoc.find? state.elements ("sprite:" ++ spriteId)
      let submittedIfMatch := resolveIfMatch data
      let comparableEtag :=
        match previousMetrics with
        | some p => some p.etag
        | none => existingSpriteElement.map (fun e => e.etag)
      if ¬ ifMatchSatisfiedAny submittedIfMatch
          [previousMetrics.map (fun p => p.etag), existingSpriteElement.map (fun e => e.etag)] then
        (st, [sendEtagConflict conn "sprite" spriteId submittedIfMatch comparableEtag
          (match previousMetrics with
           | some p => some p.firstEditedBy
           | none => existingSpriteElement.map (fun e => e.firstEditedBy))
          (match previousMetrics with
           | some p => some p.firstEditedAt
           | none => existingSpriteElement.map (fun e => e.firstEditedAt))])
      else spriteUpdateCommit st w u spriteId data nowMs

/-- Handler of `stack_move` (lines 1002-1010): pass-through broadcast. -/
def handleStackMove (st : ServerState) (w u : String) (data : JVal) :
    ServerState × List OutEvent :=
  (st, [OutEvent.broadcast w (some u)
    (Frame.stackMove u (jget data "stackId") (jget data "blocks") (jget data "position"))])

/-- Handler of `action` (lines 1012-1018): pass-through broadcast. -/
def handleActionMsg (st : ServerState) (w u : String) (data : JVal) :
    ServerState × List OutEvent :=
  (st, [OutEvent.broadcast w (some u) (Frame.actionMsg u (jget data "action"))])

/-- Post-gate write of `create_element` (lines 1042-1102): insert or
replace the entity, derive sprite metrics for sprites, broadcast. `st`
already carries the ensured shared state. -/
def createElementCommit (st : ServerState) (w u elementType elementId : String)
    (data : JVal) (nowMs : Int) : ServerState × List OutEvent :=
  let elementData := jget data "elementData"
  let state := sharedOf st w
  let elementKey := elementType ++ ":" ++ elementId
  let existingElement := Assoc.find? state.elements elementKey
  let version := (match existingElement with | some e => e.version | none => 0) + 1
  let etag := buildEntityEtag elementKey version
  let firstEditedBy := match existingElement with | some e => e.firstEditedBy | none => u
  let firstEditedAt := match existingElement with | some e => e.firstEditedAt | none => nowMs
  let newElement : WorkspaceElementState :=
    { elementType := elementType, elementId := elementId, elementData := elementData
      version := version, etag := etag
      firstEditedBy := firstEditedBy, firstEditedAt := firstEditedAt
      updatedBy := u, updatedAt := nowMs }
  let state := { state with elements := Assoc.set state.elements elementKey newElement }
  let metricState : Option WorkspaceSpriteMetrics :=
    if elementType = "sprite" ∧ isRecord elementData then
      let x := normalizeFiniteNumber (jget elementData "x")
      let y := normalizeFiniteNumber (jget elementData "y")
      let rotation := normalizeFiniteNumber (jget elementData "rotation")
      let size := normalizeFiniteNumber (jget elementData "size")
      let visible := match jget elementData "visible" with | JVal.jbool b => some b | _ => none
      let existingMetrics := Assoc.find? state.spriteMetrics elementId
      let metricsVersion := (match existingMetrics with | some m => m.version | none => 0) + 1
      some
        { spriteId := elementId
          x := x.getD 0, y := y.getD 0
          rotation := rotation, size := size, visible := visible
          version := metricsVersion
          etag := buildEntityEtag ("sprite-metrics:" ++ elementId) metricsVersion
          firstEditedBy :=
            match existingMetrics with | some m => m.firstEditedBy | none => u
          firstEditedAt :=
            match existingMetrics with | some m => m.firstEditedAt | none => nowMs
          updatedBy := u, updatedAt := nowMs }
    else none
  let state :=
    match metricState with
    | some m => { state with spriteMetrics := Assoc.set state.spriteMetrics elementId m }
    | none => state
  let st := { st with sharedState := Assoc.set st.sharedState w state }
  (st, [OutEvent.broadcast w (some u)
    (Frame.elementCreated elementType elementId elementData u
      (some etag) (some version) (some firstEditedBy) (some firstEditedAt)
      (metricState.map (·.etag)) (metricState.map (·.version))
      (metricState.map (·.firstEditedBy)) (metricState.map (·.firstEditedAt)))])

/-- Handler of `create_element` (lines 1020-1103). -/
def handleCreateElement (st : ServerState) (w u : String) (conn : Nat) (data : JVal)
    (nowMs : Int) : ServerState × List OutEvent :=
  let elementType := asStringOr (jget data "elementType") ""
  let elementData := jget data "elementData"
  let elementId := resolveElementIdFromPayload elementType elementData (jget data "elementId")
  if elementType = "" ∨ elementId = "" then
    (st, [OutEvent.broadcast w (some u)
      (Frame.elementCreated elementType elementId elementData u
        none none none none none none none none)])
  else
    let st := ensureSharedState st w
    let state := sharedOf st w
    let elementKey := elementType ++ ":" ++ elementId
    let existingElement := Assoc.find? state.elements elementKey
    let submittedIfMatch := resolveIfMatch data
    if ¬ ifMatchSatisfied submittedIfMatch (existingElement.map (·.etag)) then
      (st, [sendEtagConflict conn elementType elementId submittedIfMatch
        (existingElement.map (·.etag)) (existingElement.map (·.firstEditedBy))
        (existingElement.map (·.firstEditedAt))])
    else createElementCommit st w u elementType elementId data nowMs

/-- Post-gate removal of `delete_element` (lines 1131-1149): drop the
entity and, for sprites, the derived metrics and snapshot; broadcast. -/
def deleteElementCommit (st : ServerState) (w u elementType elementId : String) :
    ServerState × List OutEvent :=
  let state := sharedOf st w
  let elementKey := elementType ++ ":" ++ elementId
  let existingElement := Assoc.find? state.elements elementKey
  let deletedFromEtag := existingElement.map (·.etag)
  let firstEditedBy := existingElement.map (·.firstEditedBy)
  let firstEditedAt := existingElement.map (·.firstEditedAt)
  let state := { state with elements := Assoc.erase state.elements elementKey }
  let state :=
    if elementType = "sprite" then
      { state with
        spriteMetrics := Assoc.erase state.spriteMetrics elementId
        workspaceSnapshots := Assoc.erase state.workspaceSnapshots elementId }
    else state
  let st := { st with sharedState := Assoc.set st.sharedState w state }
  (st, [OutEvent.broadcast w (some u)
    (Frame.elementDeleted elementId elementType u deletedFromEtag firstEditedBy firstEditedAt)])

/-- Handler of `delete_element` (lines 1105-1150). -/
def handleDeleteElement (st : ServerState) (w u : String) (conn : Nat) (data : JVal) :
    ServerState × List OutEvent :=
  let elementType := asStringOr (jget data "elementType") ""
  let elementId :=
    resolveElementIdFromPayload elementType (jget data "elementData") (jget data "elementId")
  if elementType = "" ∨ elementId = "" then
    (st, [OutEvent.broadcast w (some u)
      (Frame.elementDeleted elementId elementType u none none none)])
  else
    let st := ensureSharedState st w
    let state := sharedOf st w
    let elementKey := elementType ++ ":" ++ elementId
    let existingElement := Assoc.find? state.elements elementKey
    let existingSpriteMetrics :=
      if elementType = "sprite" then Assoc.find? state.spriteMetrics elementId else none
    let submittedIfMatch := resolveIfMatch data
    let comparableEtag :=
      match existingElement with
      | some e => some e.etag
      | none => existingSpriteMetrics.map (·.etag)
    if ¬ ifMatchSatisfiedAny submittedIfMatch
        [existingElement.map (·.etag), existingSpriteMetrics.map (·.etag)] then
      (st, [sendEtagConflict conn elementType elementId submittedIfMatch comparableEtag
        (existingElement.map (·.firstEditedBy)) (existingElement.map (·.firstEditedAt))])
    else deleteElementCommit st w u elementType elementId

/-- Post-gate write of `workspace_snapshot` (lines 1183-1207). -/
def workspaceSnapshotCommit (st : ServerState) (w u spriteId serializedJson : String)
    (nowMs : Int) : ServerState × List OutEvent :=
  let state := sharedOf st w
  let existingSnapshot := Assoc.find? state.workspaceSnapshots spriteId
  let version := (match existingSnapshot with | some s => s.version | none => 0) + 1
  let etag := buildEntityEtag ("workspace-snapshot:" ++ spriteId) version
  let firstEditedBy := match existingSnapshot with | some s => s.firstEditedBy | none => u
  let firstEditedAt := match existingSnapshot with | some s => s.firstEditedAt | none => nowMs
  let newSnapshot : WorkspaceSnapshotState :=
    { spriteId := spriteId, serializedJson := serializedJson
      version := version, etag := etag
      firstEditedBy := firstEditedBy, firstEditedAt := firstEditedAt
      updatedBy := u, updatedAt := nowMs }
  let state :=
    { state with workspaceSnapshots := Assoc.set state.workspaceSnapshots spriteId newSnapshot }
  let st := { st with sharedState := Assoc.set st.sharedState w state }
  (st, [OutEvent.broadcast w (some u)
    (Frame.workspaceSnapshot u spriteId serializedJson version etag
      firstEditedBy firstEditedAt)])

/-- Handler of `workspace_snapshot` (lines 1152-1208). -/
def handleWorkspaceSnapshot (st : ServerState) (w u : String) (conn : Nat) (data : JVal)
    (nowMs : Int) : ServerState × List OutEvent :=
  let spriteId := strTrim (asStringOr (jget data "spriteId") "")
  let serializedJson := asStringOr (jget data "serializedJson") ""
  if spriteId = "" ∨ serializedJson = "" then (st, [])
  else if strLength serializedJson > 2000000 then
    (st, [OutEvent.reply conn (Frame.errorMsg "Workspace snapshot too large")])
  else if ¬ hasPermission st.perms w u PermissionKey.canEditBlocks then (st, [])
  else
    let st := ensureSharedState st w
    let state := sharedOf st w
    let existingSnapshot := Assoc.find? state.workspaceSnapshots spriteId
    let submittedIfMatch := resolveIfMatch data
    if ¬ ifMatchSatisfied submittedIfMatch (existingSnapshot.map (·.etag)) then
      (st, [sendEtagConflict conn "workspace_snapshot" spriteId submittedIfMatch
        (existingSnapshot.map (·.etag)) (existingSnapshot.map (·.firstEditedBy))
        (existingSnapshot.map (·.firstEditedAt))])
    else workspaceSnapshotCommit st w u spriteId serializedJson nowMs

/-! ## The message dispatcher (`src/server.ts`, lines 364-1213) -/

/-- Fall-through chain after the post-switch authentication gate (lines
767-1208); the message types are mutually exclusive string literals, so
the sequence of `if` statements is an if-else chain. -/
def handleChain (st : ServerState) (w u : String) (conn : Nat) (data : JVal)
    (type : String) (nowMs : Int) : ServerState × List OutEvent :=
  if type = "update_coords" then handleUpdateCoords st w u data
  else if type = "element_drag" then handleElementDrag st w u data
  else if type = "block_move" then handleBlockMove st w u conn data nowMs
  else if type = "block_focus" then handleBlockFocus st w u data
  else if type = "sprite_update" then handleSpriteUpdate st w u conn data nowMs
  else if type = "stack_move" then handleStackMove st w u data
  else if type = "action" then handleActionMsg st w u data
  else if type = "create_element" then handleCreateElement st w u conn data nowMs
  else if type = "delete_element" then handleDeleteElement st w u conn data
  else if type = "workspace_snapshot" then handleWorkspaceSnapshot st w u conn data nowMs
  else (st, [])

/-- Dispatcher for one inbound frame (the message listener, lines
364-1213): the switch over `type` followed by the post-switch
authentication gate and the fall-through chain. -/
def handleMessage (st : ServerState) (cs : ConnState) (conn : Nat) (data : JVal)
    (payload : Option RawTicketPayload) (nowMs : Int) :
    ServerState × ConnState × List OutEvent :=
  if ¬ isRecord data then
    (st, cs, [OutEvent.reply conn (Frame.errorMsg "Invalid message format")])
  else
    let type := asStringOr (jget data "type") ""
    if type = "auth" then handleAuth st cs conn data payload nowMs
    else
      let caseResult : ServerState × List OutEvent × Bool :=
        if type = "request_shared_state" then caseRequestSharedState st cs conn
        else if type = "request_teacher_role" then caseRequestTeacherRole st cs conn
        else if type = "update_username" then caseUpdateUsername st cs conn data
        else if type = "update_global_permission" then caseUpdateGlobalPermission st cs data
        else if type = "update_user_permission" then caseUpdateUserPermission st cs data
        else if type = "apply_preset_mode" then caseApplyPresetMode st cs data
        else if type = "request_lock" then caseRequestLock st cs conn data
        else if type = "release_lock" then caseReleaseLock st cs data
        else (st, [], false)
      match caseResult with
      | (st1, evs1, true) => (st1, cs, evs1)
      | (st1, evs1, false) =>
        match cs.isAuthenticated, cs.workspaceId, cs.userId with
        | true, some w, some u =>
          let chain := handleChain st1 w u conn data type nowMs
          (chain.1, cs, evs1 ++ chain.2)
        | _, _, _ =>
          (st1, cs, evs1 ++ [OutEvent.reply conn (Frame.errorMsg "Not authenticated")])

/-- Close handler (lines 1215-1247). -/
def handleClose (st : ServerState) (cs : ConnState) (conn : Nat) :
    ServerState × List OutEvent :=
  if st.skipFlags.contains conn then (st, [])
  else
    match cs.isAuthenticated, cs.workspaceId, cs.userId with
    | true, some w, some u =>
      match Assoc.find? st.workspaces w with
      | none => (st, [])
      | some workspace =>
        let workspace := Assoc.erase workspace u
        let st := { st with workspaces := Assoc.set st.workspaces w workspace }
        let (st, unlockEvents) :=
          match Assoc.find? st.workspaceLocks w with
          | none => (st, [])
          | some locks =>
            let released := locks.filter (fun kv => kv.2.lockedBy = u)
            let remaining := locks.filter (fun kv => ¬ (kv.2.lockedBy = u))
            ({ st with workspaceLocks := Assoc.set st.workspaceLocks w remaining },
             released.map (fun kv =>
               OutEvent.broadcast w (some u) (Frame.elementUnlocked kv.1 none)))
        if workspace.length = 0 then
          (scheduleWorkspaceCleanup st w, unlockEvents)
        else
          (st, unlockEvents ++ [OutEvent.broadcast w (some u) (Frame.userLeft u)])
    | _, _, _ => (st, [])

/-! ## Helper definitions for stating the claims -/

/-- Canonical name of a permission key on the wire. -/
def permKeyName : PermissionKey → String
  | .canView => "canView"
  | .canEditBlocks => "canEditBlocks"
  | .canAddBlocks => "canAddBlocks"
  | .canDeleteBlocks => "canDeleteBlocks"
  | .canEditSprites => "canEditSprites"
  | .canAddSprites => "canAddSprites"
  | .canDeleteSprites => "canDeleteSprites"
  | .canEditVariables => "canEditVariables"
  | .canAddVariables => "canAddVariables"
  | .canDeleteVariables => "canDeleteVariables"
  | .canRunCode => "canRunCode"
  | .canStopCode => "canStopCode"
  | .canChat => "canChat"
  | .canDraw => "canDraw"
  | .canUploadAssets => "canUploadAssets"
  | .canEditCostumes => "canEditCostumes"
  | .canEditSounds => "canEditSounds"
  | .canRecordAudio => "canRecordAudio"
  | .canUseCamera => "canUseCamera"
  | .canShareProject => "canShareProject"
  | .canManageUsers => "canManageUsers"
  | .canChangePermissions => "canChangePermissions"
  | .canKickUsers => "canKickUsers"
  | .canLockWorkspace => "canLockWorkspace"

/-- Whether an event carries a `conflict` frame. -/
def eventIsConflict : OutEvent → Bool
  | OutEvent.reply _ (Frame.conflict _ _ _ _ _ _) => true
  | OutEvent.broadcast _ _ (Frame.conflict _ _ _ _ _ _) => true
  | _ => false

/-- Whether an event carries a `user_joined` frame. -/
def eventIsUserJoined : OutEvent → Bool
  | OutEvent.reply _ (Frame.userJoined _ _ _ _ _ _) => true
  | OutEvent.broadcast _ _ (Frame.userJoined _ _ _ _ _ _) => true
  | _ => false

/-- Whether an event carries a `user_left` frame. -/
def eventIsUserLeft : OutEvent → Bool
  | OutEvent.reply _ (Frame.userLeft _) => true
  | OutEvent.broadcast _ _ (Frame.userLeft _) => true
  | _ => false

/-- Whether an event is a `user_updated` broadcast into the given
workspace. -/
def eventIsUserUpdatedBroadcast (w : String) : OutEvent → Bool
  | OutEvent.broadcast w' _ (Frame.userUpdated _ _ _ _ _) => w' = w
  | _ => false

/-- Whether an event carries an `element_unlocked` frame. -/
def eventIsElementUnlocked : OutEvent → Bool
  | OutEvent.reply _ (Frame.elementUnlocked _ _) => true
  | OutEvent.broadcast _ _ (Frame.elementUnlocked _ _) => true
  | _ => false

/-! ## Helper lemmas about the map model -/

theorem Assoc.find?_set {α : Type} (m : Assoc α) (k : String) (v : α) :
    Assoc.find? (Assoc.set m k v) k = some v := by
  induction m with
  | nil => simp [Assoc.set, Assoc.find?]
  | cons hd tl ih =>
    by_cases h : hd.1 = k
    · simp [Assoc.set, Assoc.find?, h]
    · simp [Assoc.set, Assoc.find?, h, ih]

theorem Assoc.find?_set_ne {α : Type} (m : Assoc α) (k k' : String) (v : α)
    (h : k ≠ k') : Assoc.find? (Assoc.set m k v) k' = Assoc.find? m k' := by
  induction m with
  | nil => simp [Assoc.set, Assoc.find?, h]
  | cons hd tl ih =>
    by_cases hk : hd.1 = k
    · simp [Assoc.set, Assoc.find?, hk, h]
    · simp [Assoc.set, Assoc.find?, hk, ih]

theorem Assoc.find?_eq_none_of_not_mem {α : Type} (m : Assoc α) (k : String)
    (h : k ∉ m.map Prod.fst) : Assoc.find? m k = none := by
  induction m with
  | nil => simp [Assoc.find?]
  | cons hd tl ih =>
    simp only [List.map_cons, List.mem_cons] at h
    push_neg at h
    have hne : ¬ hd.1 = k := fun hh => h.1 hh.symm
    simp [Assoc.find?, hne, ih h.2]

theorem Assoc.find?_erase_self {α : Type} (m : Assoc α) (k : String)
    (h : (m.map Prod.fst).Nodup) : Assoc.find? (Assoc.erase m k) k = none := by
  induction m with
  | nil => simp [Assoc.erase, Assoc.find?]
  | cons hd tl ih =>
    simp only [List.map_cons, List.nodup_cons] at h
    by_cases hk : hd.1 = k
    · simpa [Assoc.erase, hk] using
        Assoc.find?_eq_none_of_not_mem tl k (hk ▸ h.1)
    · simp [Assoc.erase, Assoc.find?, hk, ih h.2]

theorem sharedOf_ensure (st : ServerState) (w w' : String) :
    sharedOf (ensureSharedState st w) w' = sharedOf st w' := by
  unfold ensureSharedState sharedOf
  by_cases h : (Assoc.find? st.sharedState w).isSome
  · simp [h]
  · by_cases hw : w = w'
    · subst hw
      simp only [Option.isSome] at h
      cases hfind : Assoc.find? st.sharedState w with
      | some v => simp [hfind] at h
      | none => simp [h, Assoc.find?_set, hfind]
    · simp [h, Assoc.find?_set_ne _ _ _ _ hw]

theorem asPermissionKey_name (k : PermissionKey) :
    asPermissionKey (JVal.jstr (permKeyName k)) = some k := by
  cases k <;> rfl

/-! ## Concrete fixtures used by counterexamples and witnesses -/

/-- Fresh server state with default configuration. -/
def emptyServerState : ServerState :=
  { workspaces := [], workspaceLocks := [], sharedState := [], cleanupTimers := [],
    perms := [], consumedTicketIds := [], skipFlags := [], retentionMs := 120000 }

/-- Permission state after admission of ADMIN user u1 into workspace w. -/
def fixPermsAdmin : PermMgr := setUserAsAdmin (initializeWorkspace [] "w") "w" "u1"

/-- Member record of the admitted ADMIN user u1 on socket 1. -/
def fixClientU1 : ClientState :=
  { id := "u1", username := "User", role := UserRole.ADMIN, conn := 1,
    permissions := getOwnerPermissions, isOwner := true, coords := none }

/-- Server state with the single member u1 (ADMIN) in workspace w. -/
def fixStAdmin : ServerState :=
  { workspaces := [("w", [("u1", fixClientU1)])]
    workspaceLocks := [("w", [])]
    sharedState := [("w", emptySharedState)]
    cleanupTimers := [], perms := fixPermsAdmin, consumedTicketIds := []
    skipFlags := [], retentionMs := 120000 }

/-- Connection state of the authenticated u1 session. -/
def fixCsU1 : ConnState :=
  { userId := some "u1", workspaceId := some "w", isAuthenticated := true }

/-! ## Spec-side permission templates (stated from the spec wording, for
comparison with the sets the code computes) -/

/-- Exactly `canView` true, every other key false. -/
def presentationGlobal : PermissionSet :=
  { canView := true, canEditBlocks := false, canAddBlocks := false,
    canDeleteBlocks := false, canEditSprites := false, canAddSprites := false,
    canDeleteSprites := false, canEditVariables := false, canAddVariables := false,
    canDeleteVariables := false, canRunCode := false, canStopCode := false,
    canChat := false, canDraw := false, canUploadAssets := false,
    canEditCostumes := false, canEditSounds := false, canRecordAudio := false,
    canUseCamera := false, canShareProject := false, canManageUsers := false,
    canChangePermissions := false, canKickUsers := false, canLockWorkspace := false }

/-- Exactly the work-mode keys true, every other key false. -/
def workGlobal : PermissionSet :=
  { presentationGlobal with
    canEditBlocks := true, canAddBlocks := true, canEditSprites := true,
    canRunCode := true, canChat := true }

/-- Exactly `canView` and `canRunCode` true, every other key false. -/
def testGlobal : PermissionSet :=
  { presentationGlobal with canRunCode := true }

/-- Exactly `canView` true, every other key false. -/
def restrictedGlobal : PermissionSet := presentationGlobal

/-! ## C10 -/

/-- C10: for every workspace id absent from the permission map (never
initialized, or already deleted) and every user, `getUserPermissions`
returns the STUDENT template (`canView` and `canChat` true, the other 22
keys false), and `hasPermission` is true exactly for `canView` and
`canChat`. -/
theorem c10_unknown_workspace_defaults (pm : PermMgr) (w u : String)
    (h : Assoc.find? pm w = none) :
    getUserPermissions pm w u = getStudentPermissions ∧
    getStudentPermissions =
      { presentationGlobal with canView := true, canChat := true } ∧
    (∀ k : PermissionKey,
      hasPermission pm w u k =
        decide (k = PermissionKey.canView ∨ k = PermissionKey.canChat)) := by
  refine ⟨?_, ?_, ?_⟩
  · simp [getUserPermissions, h]
  · rfl
  · intro k
    simp only [hasPermission, getUserPermissions, h]
    cases k <;> rfl

/-- Witness for C10 at the empty permission map. -/
theorem c10_witness :
    Assoc.find? ([] : PermMgr) "nope" = none ∧
    getUserPermissions ([] : PermMgr) "nope" "u" = getStudentPermissions ∧
    hasPermission ([] : PermMgr) "nope" "u" PermissionKey.canChat = true ∧
    hasPermission ([] : PermMgr) "nope" "u" PermissionKey.canEditBlocks = false := by
  refine ⟨rfl, (c10_unknown_workspace_defaults [] "nope" "u" rfl).1, ?_, ?_⟩
  · exact ((c10_unknown_workspace_defaults [] "nope" "u" rfl).2.2 PermissionKey.canChat).trans
      (by decide)
  · exact ((c10_unknown_workspace_defaults [] "nope" "u" rfl).2.2 PermissionKey.canEditBlocks).trans
      (by decide)

/-! ## C9 -/

/-- C9: `applyPresetMode` replaces `globalPermissions` outright: whatever
the prior global set was, `presentation` yields exactly `canView` true and
the other 23 keys (including `canChat`) false, and `work`, `test`,
`restricted` likewise yield exactly their listed keys; a subsequent
`updateGlobalPermission` modifies only the named key of the new
baseline. -/
theorem c9_preset_replaces (pm : PermMgr) (w : String) (ws : WorkspacePermissionState)
    (h : Assoc.find? pm w = some ws) :
    (Assoc.find? (applyPresetMode pm w (JVal.jstr "presentation")).1 w =
      some { ws with globalPermissions := presentationGlobal }) ∧
    (Assoc.find? (applyPresetMode pm w (JVal.jstr "work")).1 w =
      some { ws with globalPermissions := workGlobal }) ∧
    (Assoc.find? (applyPresetMode pm w (JVal.jstr "test")).1 w =
      some { ws with globalPermissions := testGlobal }) ∧
    (Assoc.find? (applyPresetMode pm w (JVal.jstr "restricted")).1 w =
      some { ws with globalPermissions := restrictedGlobal }) ∧
    (∀ (k : PermissionKey) (b : Bool),
      Assoc.find?
        (updateGlobalPermission (applyPresetMode pm w (JVal.jstr "presentation")).1 w
          (JVal.jstr (permKeyName k)) (JVal.jbool b)).1 w =
      some { ws with globalPermissions := setPerm presentationGlobal k b }) := by
  have hpres :
      Assoc.find? (applyPresetMode pm w (JVal.jstr "presentation")).1 w =
        some { ws with globalPermissions := presentationGlobal } := by
    simp only [applyPresetMode, h]
    norm_num
    exact Assoc.find?_set pm w _
  refine ⟨hpres, ?_, ?_, ?_, ?_⟩
  · simp only [applyPresetMode, h]
    norm_num
    exact Assoc.find?_set pm w _
  · simp only [applyPresetMode, h]
    norm_num
    exact Assoc.find?_set pm w _
  · simp only [applyPresetMode, h]
    norm_num
    exact Assoc.find?_set pm w _
  · intro k b
    simp only [updateGlobalPermission, hpres, asPermissionKey_name]
    exact Assoc.find?_set _ w _

/-- Witness for C9 at a freshly initialized workspace. -/
theorem c9_witness :
    Assoc.find? (initializeWorkspace [] "w") "w" =
      some { globalPermissions := getStudentPermissions, userPermissions := [], isLocked := false } ∧
    Assoc.find? (applyPresetMode (initializeWorkspace [] "w") "w" (JVal.jstr "presentation")).1 "w" =
      some { globalPermissions := presentationGlobal, userPermissions := [], isLocked := false } := by
  exact ⟨rfl, (c9_preset_replaces (initializeWorkspace [] "w") "w" _ rfl).1⟩

/-! ## C4 -/

/-- C4 counterexample: an ADMIN (who has `canChangePermissions`) issues
`update_user_permission` targeting the admitted ADMIN user; afterwards the
effective permission set is no longer the ADMIN template (`canView` is
false), contradicting the claim that it remains the full template
regardless of per-user overrides. -/
theorem c4_admin_counterexample :
    getUserPermissions fixStAdmin.perms "w" "u1" = getOwnerPermissions ∧
    (getUserPermissions
        (handleMessage fixStAdmin fixCsU1 1
          (jobjOf [("type", JVal.jstr "update_user_permission"),
                   ("targetUserId", JVal.jstr "u1"),
                   ("permission", JVal.jstr "canView"),
                   ("value", JVal.jbool false)]) none 0).1.perms "w" "u1"
      ≠ getOwnerPermissions) ∧
    (getUserPermissions
        (handleMessage fixStAdmin fixCsU1 1
          (jobjOf [("type", JVal.jstr "update_user_permission"),
                   ("targetUserId", JVal.jstr "u1"),
                   ("permission", JVal.jstr "canView"),
                   ("value", JVal.jbool false)]) none 0).1.perms "w" "u1").canView
      = false := by
  decide

/-- C4 amended: at admission with role ADMIN, `setUserAsAdmin` installs
the full ADMIN template (all 24 keys true) as the per-user entry, which
takes precedence over `globalPermissions`; but a later
`updateUserPermission` targeting that user rewrites the named key of that
entry, so the set does not remain the ADMIN template. -/
theorem c4_admin_amended (pm : PermMgr) (w u : String) (ws : WorkspacePermissionState)
    (h : Assoc.find? pm w = some ws) :
    getUserPermissions (setUserAsAdmin pm w u) w u = getOwnerPermissions ∧
    (∀ (k : PermissionKey) (b : Bool),
      getUserPermissions
        (updateUserPermission (setUserAsAdmin pm w u) w u
          (JVal.jstr (permKeyName k)) (JVal.jbool b)).1 w u
      = setPerm getOwnerPermissions k b) := by
  have hadmin :
      Assoc.find? (setUserAsAdmin pm w u) w =
        some { ws with userPermissions := Assoc.set ws.userPermissions u getOwnerPermissions } := by
    simp only [setUserAsAdmin, h]
    exact Assoc.find?_set pm w _
  constructor
  · simp [getUserPermissions, hadmin, Assoc.find?_set]
  · intro k b
    simp only [updateUserPermission, hadmin, asPermissionKey_name, Assoc.find?_set]
    simp [getUserPermissions, Assoc.find?_set]

/-- Witness for C4 amended at the fixture permission state. -/
theorem c4_witness :
    Assoc.find? (initializeWorkspace [] "w") "w" =
      some { globalPermissions := getStudentPermissions, userPermissions := [], isLocked := false } ∧
    getUserPermissions (setUserAsAdmin (initializeWorkspace [] "w") "w" "u1") "w" "u1" =
      getOwnerPermissions := by
  exact ⟨rfl, (c4_admin_amended (initializeWorkspace [] "w") "w" "u1" _ rfl).1⟩

/-! ## C8 -/

/-- C8 counterexample: an unauthenticated `request_shared_state` frame is
dropped with NO reply at all (the case returns before the post-switch
error), contradicting the claim that every non-auth frame gets an error
reply; state and connection are untouched and the socket stays open. -/
theorem c8_unauthenticated_counterexample :
    handleMessage emptyServerState ConnState.fresh 1
      (jobjOf [("type", JVal.jstr "request_shared_state")]) none 0
      = (emptyServerState, ConnState.fresh, []) := by
  decide

/-- C8 amended: before a successful `auth`, frames whose type is one of
the eight switch-handled session types are silently dropped (no reply, no
close, no state change), while every other non-auth type receives the
"Not authenticated" error reply; in both situations the connection stays
open and server and connection state are unchanged. -/
theorem c8_unauthenticated_amended (st : ServerState) (cs : ConnState) (conn : Nat)
    (data : JVal) (payload : Option RawTicketPayload) (nowMs : Int)
    (hrec : isRecord data = true) (hauth : cs.isAuthenticated = false) :
    ((asStringOr (jget data "type") "") ∈
        ["request_shared_state", "request_teacher_role", "update_username",
         "update_global_permission", "update_user_permission", "apply_preset_mode",
         "request_lock", "release_lock"] →
      handleMessage st cs conn data payload nowMs = (st, cs, [])) ∧
    ((asStringOr (jget data "type") "") ∉
        ["auth", "request_shared_state", "request_teacher_role", "update_username",
         "update_global_permission", "update_user_permission", "apply_preset_mode",
         "request_lock", "release_lock"] →
      handleMessage st cs conn data payload nowMs =
        (st, cs, [OutEvent.reply conn (Frame.errorMsg "Not authenticated")])) := by
  obtain ⟨uid, wid, iauth⟩ := cs
  simp only at hauth
  subst hauth
  constructor
  · intro h
    simp only [List.mem_cons, List.not_mem_nil, or_false] at h
    rcases h with ht | ht | ht | ht | ht | ht | ht | ht <;>
      simp [handleMessage, hrec, ht, caseRequestSharedState, caseRequestTeacherRole,
            caseUpdateUsername, caseUpdateGlobalPermission, caseUpdateUserPermission,
            caseApplyPresetMode, caseRequestLock, caseReleaseLock, withSession]
  · intro h
    simp only [List.mem_cons, List.not_mem_nil, or_false, not_or] at h
    obtain ⟨h1, h2, h3, h4, h5, h6, h7, h8, h9⟩ := h
    simp [handleMessage, hrec, h1, h2, h3, h4, h5, h6, h7, h8, h9]

/-- Witness for C8 amended: the silent drop of `request_lock` and the
error reply for `block_move`, both unauthenticated. -/
theorem c8_witness :
    isRecord (jobjOf [("type", JVal.jstr "request_lock")]) = true ∧
    ConnState.fresh.isAuthenticated = false ∧
    handleMessage emptyServerState ConnState.fresh 3
      (jobjOf [("type", JVal.jstr "request_lock")]) none 0
      = (emptyServerState, ConnState.fresh, []) ∧
    handleMessage emptyServerState ConnState.fresh 3
      (jobjOf [("type", JVal.jstr "block_move")]) none 0
      = (emptyServerState, ConnState.fresh,
         [OutEvent.reply 3 (Frame.errorMsg "Not authenticated")]) := by
  refine ⟨rfl, rfl, ?_, ?_⟩
  · exact (c8_unauthenticated_amended emptyServerState ConnState.fresh 3
      (jobjOf [("type", JVal.jstr "request_lock")]) none 0 rfl rfl).1 (by decide)
  · exact (c8_unauthenticated_amended emptyServerState ConnState.fresh 3
      (jobjOf [("type", JVal.jstr "block_move")]) none 0 rfl rfl).2 (by decide)

/-! ## C3 -/

/-- Inbound `request_lock` frame for block b1. -/
def fixLockReq : JVal :=
  jobjOf [("type", JVal.jstr "request_lock"), ("elementId", JVal.jstr "b1"),
          ("elementType", JVal.jstr "block")]

/-- Inbound `release_lock` frame for block b1. -/
def fixLockRel : JVal :=
  jobjOf [("type", JVal.jstr "release_lock"), ("elementId", JVal.jstr "b1")]

/-- C3 counterexample: u1 is granted the lock on b1 with version 1,
releases it (the entry is deleted), and the next grant carries version 1
again — not strictly greater than the earlier grant, contradicting the
claimed workspace-lifetime monotonicity across release. -/
theorem c3_lock_version_counterexample :
    (handleMessage fixStAdmin fixCsU1 1 fixLockReq none 0).2.2.head? =
      some (OutEvent.reply 1 (Frame.lockGranted "b1" 1)) ∧
    Assoc.find?
      (((handleMessage (handleMessage fixStAdmin fixCsU1 1 fixLockReq none 0).1
          fixCsU1 1 fixLockRel none 0).1.workspaceLocks.find? "w").getD []) "b1" = none ∧
    (handleMessage
        (handleMessage (handleMessage fixStAdmin fixCsU1 1 fixLockReq none 0).1
          fixCsU1 1 fixLockRel none 0).1
        fixCsU1 1 fixLockReq none 0).2.2.head? =
      some (OutEvent.reply 1 (Frame.lockGranted "b1" 1)) ∧
    ¬ ((1 : Nat) > 1) := by
  refine ⟨by decide, ?_, by decide, by decide⟩
  decide

/-- C3 amended: while a lock entry exists, versions strictly increase (a
re-grant to the holder carries the previous version plus one), and the
first grant carries version 1; but `release_lock` deletes the entry, so
the grant that follows a release restarts at version 1 instead of
exceeding all earlier grants. -/
theorem c3_lock_version_amended (st : ServerState) (conn : Nat) (data : JVal)
    (w u eid : String) (locks : Assoc LockInfo)
    (hl : Assoc.find? st.workspaceLocks w = some locks)
    (heid : asStringOr (jget data "elementId") "" = eid)
    (hne : eid ≠ "")
    (hperm : hasPermission st.perms w u
      (if asStringOr (jget data "elementType") "block" = "sprite" then
        PermissionKey.canEditSprites
       else if asStringOr (jget data "elementType") "block" = "variable" then
        PermissionKey.canEditVariables
       else PermissionKey.canEditBlocks) = true) :
    (Assoc.find? locks eid = none →
      caseRequestLock st ⟨some u, some w, true⟩ conn data =
        ({ st with workspaceLocks :=
                     Assoc.set st.workspaceLocks w
                       (Assoc.set locks eid { lockedBy := u, version := 1 }) },
         [OutEvent.reply conn (Frame.lockGranted eid 1),
          OutEvent.broadcast w (some u) (Frame.elementLocked eid u 1)], false)) ∧
    (∀ l : LockInfo, Assoc.find? locks eid = some l → l.lockedBy = u →
      caseRequestLock st ⟨some u, some w, true⟩ conn data =
        ({ st with workspaceLocks :=
                     Assoc.set st.workspaceLocks w
                       (Assoc.set locks eid { lockedBy := u, version := l.version + 1 }) },
         [OutEvent.reply conn (Frame.lockGranted eid (l.version + 1)),
          OutEvent.broadcast w (some u) (Frame.elementLocked eid u (l.version + 1))], false)
      ∧ l.version < l.version + 1) ∧
    (∀ l : LockInfo, Assoc.find? locks eid = some l → l.lockedBy = u →
      (caseReleaseLock st ⟨some u, some w, true⟩ data).1.workspaceLocks =
        Assoc.set st.workspaceLocks w (Assoc.erase locks eid)) := by
  refine ⟨?_, ?_, ?_⟩
  · intro hnone
    simp [caseRequestLock, withSession, hl, heid, hne, hperm, hnone]
  · intro l hsome hholder
    have hv : (if l.version = 0 then 0 else l.version) + 1 = l.version + 1 := by
      by_cases h0 : l.version = 0 <;> simp [h0]
    refine ⟨?_, Nat.lt_succ_self _⟩
    simp [caseRequestLock, withSession, hl, heid, hne, hperm, hsome, hholder, hv]
  · intro l hsome hholder
    simp [caseReleaseLock, withSession, hl, heid, hne, hsome, hholder]

/-- Witness for C3 amended: first grant at the empty lock map and
re-grant at a held lock, in the fixture workspace. -/
theorem c3_witness :
    Assoc.find? fixStAdmin.workspaceLocks "w" = some [] ∧
    caseRequestLock fixStAdmin ⟨some "u1", some "w", true⟩ 1 fixLockReq =
      ({ fixStAdmin with workspaceLocks :=
                             Assoc.set fixStAdmin.workspaceLocks "w"
                               (Assoc.set [] "b1" { lockedBy := "u1", version := 1 }) },
       [OutEvent.reply 1 (Frame.lockGranted "b1" 1),
        OutEvent.broadcast "w" (some "u1") (Frame.elementLocked "b1" "u1" 1)], false) := by
  refine ⟨rfl, ?_⟩
  exact (c3_lock_version_amended fixStAdmin 1 fixLockReq "w" "u1" "b1" [] rfl rfl
    (by decide) (by decide)).1 rfl

/-! ## C1 -/

/-- Inbound `auth` frame carrying only the token. -/
def fixAuthData : JVal :=
  jobjOf [("type", JVal.jstr "auth"), ("token", JVal.jstr "T")]

/-- Decoded ticket payload: sub u1, workspace w, role ADMIN, jti j1,
exp 100 (seconds). -/
def fixPayloadU1 : RawTicketPayload :=
  { sub := JVal.jstr "u1", workspaceId := JVal.jstr "w", username := JVal.jundef,
    role := JVal.jstr "ADMIN", jti := JVal.jstr "j1", exp := JVal.jnum 100 }

/-- Entries surviving the pruning have their expiry in the future. -/
theorem pruneConsumed_future (m : Assoc Int) (t : Int) (j : String) (e : Int)
    (h : Assoc.find? (pruneConsumedTicketIds m t) j = some e) : t < e := by
  induction m with
  | nil => simp [pruneConsumedTicketIds, Assoc.find?] at h
  | cons hd tl ih =>
    by_cases hkeep : t < hd.2
    · by_cases hj : hd.1 = j
      · rw [pruneConsumedTicketIds, List.filter_cons] at h
        simp [hkeep, Assoc.find?, hj] at h
        exact h ▸ hkeep
      · rw [pruneConsumedTicketIds, List.filter_cons] at h
        simp [hkeep, Assoc.find?, hj] at h
        exact ih h
    · rw [pruneConsumedTicketIds, List.filter_cons] at h
      simp [hkeep] at h
      exact ih h

/-- C1 counterexample: (u1, w) consumes jti j1 at admission; a second
admission attempt by the SAME (sub, workspaceId) pair with the same jti,
while exp = 100 s is still in the future (now = 10 s), is rejected with
close code 4003 — the claim says it is accepted with a refreshed TTL. -/
theorem c1_replay_counterexample :
    (handleMessage emptyServerState ConnState.fresh 1 fixAuthData
      (some fixPayloadU1) 10000).2.1.isAuthenticated = true ∧
    Assoc.find? (handleMessage emptyServerState ConnState.fresh 1 fixAuthData
      (some fixPayloadU1) 10000).1.consumedTicketIds "j1" = some 100 ∧
    ((10000 : Int) / 1000) < 100 ∧
    (handleMessage
      (handleMessage emptyServerState ConnState.fresh 1 fixAuthData
        (some fixPayloadU1) 10000).1
      ConnState.fresh 2 fixAuthData (some fixPayloadU1) 10000).2.2 =
      [OutEvent.reply 2 (Frame.errorMsg "Join ticket has already been used"),
       OutEvent.closeSock 2 4003 "Replay detected"] ∧
    (handleMessage
      (handleMessage emptyServerState ConnState.fresh 1 fixAuthData
        (some fixPayloadU1) 10000).1
      ConnState.fresh 2 fixAuthData (some fixPayloadU1) 10000).2.1.isAuthenticated = false := by
  decide

/-- C1 amended: a jti still present in the consumed map after pruning
(its recorded exp is in the future) causes rejection with code 4003 for
EVERY admission attempt, including one by the same (sub, workspaceId)
pair; when the jti is absent after pruning and the mismatch checks pass,
the admission proceeds and the jti is recorded with exp as its TTL. -/
theorem c1_replay_rejected_for_all_pairs (st : ServerState) (cs : ConnState)
    (conn : Nat) (data : JVal) (payload : Option RawTicketPayload) (nowMs : Int)
    (tc : TicketClaims)
    (hrec : isRecord data = true)
    (htype : asStringOr (jget data "type") "" = "auth")
    (htok : strTrim (asStringOr (jget data "token") "") ≠ "")
    (hver : verifyJoinTicket payload = some tc) :
    (∀ (j : String) (e : Int),
      Assoc.find? (pruneConsumedTicketIds st.consumedTicketIds (nowMs / 1000)) j = some e →
      nowMs / 1000 < e) ∧
    (Assoc.contains (pruneConsumedTicketIds st.consumedTicketIds (nowMs / 1000))
        tc.ticketId = true →
      handleMessage st cs conn data payload nowMs =
        ({ st with consumedTicketIds :=
             pruneConsumedTicketIds st.consumedTicketIds (nowMs / 1000) },
         cs,
         [OutEvent.reply conn (Frame.errorMsg "Join ticket has already been used"),
          OutEvent.closeSock conn 4003 "Replay detected"])) ∧
    (Assoc.contains (pruneConsumedTicketIds st.consumedTicketIds (nowMs / 1000))
        tc.ticketId = false →
     (normalizeWorkspaceId (jget data "workspace") = "" ∨
      normalizeWorkspaceId (jget data "workspace") = tc.workspaceId) →
     (normalizeUserId (jget data "userId") = "" ∨
      normalizeUserId (jget data "userId") = tc.userId) →
      (handleMessage st cs conn data payload nowMs).1.consumedTicketIds =
        Assoc.set (pruneConsumedTicketIds st.consumedTicketIds (nowMs / 1000))
          tc.ticketId tc.expiresAt ∧
      (handleMessage st cs conn data payload nowMs).2.1.isAuthenticated = true) := by
  refine ⟨fun j e h => pruneConsumed_future _ _ _ _ h, ?_, ?_⟩
  · intro hin
    simp [handleMessage, hrec, htype, handleAuth, htok, hver, hin]
  · intro hout hw hu
    have hw' : ¬ (normalizeWorkspaceId (jget data "workspace") ≠ "" ∧
        normalizeWorkspaceId (jget data "workspace") ≠ tc.workspaceId) := by
      rcases hw with h | h <;> simp [h]
    have hu' : ¬ (normalizeUserId (jget data "userId") ≠ "" ∧
        normalizeUserId (jget data "userId") ≠ tc.userId) := by
      rcases hu with h | h <;> simp [h]
    simp only [handleMessage, hrec, htype, handleAuth, htok, hver, hout]
    simp only [hw', hu', if_false, Bool.false_eq_true, not_false_iff, if_true]
    constructor
    · simp only [clearWorkspaceCleanupTimer, ensureSharedState]
      repeat' split
      all_goals (first | rfl | simp_all)
    · simp only [clearWorkspaceCleanupTimer, ensureSharedState]
      repeat' split
      all_goals (first | rfl | simp_all)

/-- Witness for C1 amended: the first admission of the fixture records
jti j1 with its exp 100 as TTL and authenticates the connection. -/
theorem c1_witness :
    (handleMessage emptyServerState ConnState.fresh 1 fixAuthData
      (some fixPayloadU1) 10000).1.consumedTicketIds = [("j1", (100 : Int))] ∧
    (handleMessage emptyServerState ConnState.fresh 1 fixAuthData
      (some fixPayloadU1) 10000).2.1.isAuthenticated = true := by
  have h := (c1_replay_rejected_for_all_pairs emptyServerState ConnState.fresh 1
    fixAuthData (some fixPayloadU1) 10000
    { userId := "u1", workspaceId := "w", username := "", role := UserRole.ADMIN,
      ticketId := "j1", expiresAt := 100 }
    (by decide) (by decide) (by decide) (by decide)).2.2 (by decide) (by decide) (by decide)
  exact ⟨h.1.trans (by decide), h.2⟩

/-! ## C2 -/

theorem sharedOf_set (st : ServerState) (w : String) (x : WorkspaceSharedState) :
    sharedOf { st with sharedState := Assoc.set st.sharedState w x } w = x := by
  simp [sharedOf, Assoc.find?_set]

/-- Sprite element s1 at version 1 in the fixture. -/
def fixSpriteElem : WorkspaceElementState :=
  { elementType := "sprite", elementId := "s1"
    elementData := jobjOf [("id", JVal.jstr "s1")]
    version := 1, etag := buildEntityEtag "sprite:s1" 1
    firstEditedBy := "u1", firstEditedAt := 5, updatedBy := "u1", updatedAt := 5 }

/-- Sprite metrics for s1 at version 2 in the fixture. -/
def fixSpriteMetrics : WorkspaceSpriteMetrics :=
  { spriteId := "s1", x := 0, y := 0, rotation := none, size := none, visible := none
    version := 2, etag := buildEntityEtag "sprite-metrics:s1" 2
    firstEditedBy := "u1", firstEditedAt := 5, updatedBy := "u1", updatedAt := 6 }

/-- Fixture server state: u1 (ADMIN) in w, with sprite s1 present both as
an element (version 1) and as sprite metrics (version 2). -/
def fixStSprite : ServerState :=
  { fixStAdmin with
    sharedState := [("w",
      { elements := [("sprite:s1", fixSpriteElem)]
        spriteMetrics := [("s1", fixSpriteMetrics)]
        workspaceSnapshots := [] })] }

/-- Inbound `sprite_update` whose `ifMatch` equals only the
sprite-metrics ETag, not the sprite element ETag. -/
def fixSpriteUpdateReq : JVal :=
  jobjOf [("type", JVal.jstr "sprite_update"), ("spriteId", JVal.jstr "s1"),
          ("x", JVal.jnum 7),
          ("ifMatch", JVal.jstr (buildEntityEtag "sprite-metrics:s1" 2))]

/-- C2 counterexample: both sprite entities exist with distinct ETags and
the submitted `ifMatch` equals only the sprite-metrics ETag; the claim
requires equality with BOTH, yet the write proceeds (no conflict, both
versions bump). -/
theorem c2_ifmatch_counterexample :
    resolveIfMatch fixSpriteUpdateReq = some (buildEntityEtag "sprite-metrics:s1" 2) ∧
    buildEntityEtag "sprite-metrics:s1" 2 ≠ buildEntityEtag "sprite:s1" 1 ∧
    (handleMessage fixStSprite fixCsU1 1 fixSpriteUpdateReq none 30000).2.2.all
      (fun e => !eventIsConflict e) = true ∧
    (Assoc.find? (sharedOf (handleMessage fixStSprite fixCsU1 1 fixSpriteUpdateReq
        none 30000).1 "w").spriteMetrics "s1").map (fun m => m.version) = some 3 ∧
    (Assoc.find? (sharedOf (handleMessage fixStSprite fixCsU1 1 fixSpriteUpdateReq
        none 30000).1 "w").elements "sprite:s1").map (fun e => e.version) = some 2 := by
  decide

/-- The sprite-element merge never changes the sprite-metrics map. -/
theorem spriteElementMerge_spriteMetrics (st : ServerState) (w u sid : String)
    (data : JVal) (nowMs : Int) :
    (sharedOf (spriteElementMerge st w u sid data nowMs) w).spriteMetrics =
      (sharedOf st w).spriteMetrics := by
  rcases hes : Assoc.find? (sharedOf st w).elements ("sprite:" ++ sid) with _ | es
  · simp only [spriteElementMerge]
    rw [hes]
  · simp only [spriteElementMerge]
    rw [hes]
    by_cases hrec : isRecord es.elementData
    · simp [hrec, sharedOf, Assoc.find?_set]
    · simp [hrec]

/-- The post-gate sprite write emits a single broadcast and never a
conflict frame. -/
theorem spriteUpdateCommit_noConflict (st : ServerState) (w u sid : String)
    (data : JVal) (nowMs : Int) :
    (spriteUpdateCommit st w u sid data nowMs).2.all (fun e => !eventIsConflict e) = true := by
  rfl

/-- The post-gate sprite write stores metrics whose version is the
maximum of the two prior versions plus one. -/
theorem spriteUpdateCommit_metricsVersion (st : ServerState) (w u sid : String)
    (data : JVal) (nowMs : Int) :
    (Assoc.find? (sharedOf (spriteUpdateCommit st w u sid data nowMs).1 w).spriteMetrics
        sid).map (fun m => m.version) =
      some (max
        (match Assoc.find? (sharedOf st w).spriteMetrics sid with
         | some p => p.version | none => 0)
        (match Assoc.find? (sharedOf st w).elements ("sprite:" ++ sid) with
         | some e => e.version | none => 0) + 1) := by
  unfold spriteUpdateCommit
  rw [spriteElementMerge_spriteMetrics]
  simp [sharedOf, Assoc.find?_set]

/-- C2 amended: for a non-star `ifMatch`, the gate of `sprite_update` is
satisfied when the submitted value equals AT LEAST ONE of the two
relevant ETags (sprite-metrics or sprite element), not all of them: on
failure a conflict is sent and nothing is written, on success the write
proceeds even when the value differs from the other ETag; the
`delete_element` gate of a sprite uses the same any-of rule. -/
theorem c2_ifmatch_any_semantics (st : ServerState) (w u : String) (conn : Nat)
    (data : JVal) (nowMs : Int) (sid : String)
    (hsid : asStringOr (jget data "spriteId") "" = sid)
    (hne : sid ≠ "")
    (hlock : lockHeldByOther st w u sid = false) :
    (∀ (s : String) (etags : List (Option String)), s ≠ "*" →
      (ifMatchSatisfiedAny (some s) etags = true ↔ some s ∈ etags)) ∧
    (ifMatchSatisfiedAny (resolveIfMatch data)
        [(Assoc.find? (sharedOf (ensureSharedState st w) w).spriteMetrics sid).map (·.etag),
         (Assoc.find? (sharedOf (ensureSharedState st w) w).elements ("sprite:" ++ sid)).map (·.etag)]
        = false →
      handleSpriteUpdate st w u conn data nowMs =
        (ensureSharedState st w,
         [sendEtagConflict conn "sprite" sid (resolveIfMatch data)
           (match Assoc.find? (sharedOf (ensureSharedState st w) w).spriteMetrics sid with
            | some p => some p.etag
            | none => (Assoc.find? (sharedOf (ensureSharedState st w) w).elements
                ("sprite:" ++ sid)).map (·.etag))
           (match Assoc.find? (sharedOf (ensureSharedState st w) w).spriteMetrics sid with
            | some p => some p.firstEditedBy
            | none => (Assoc.find? (sharedOf (ensureSharedState st w) w).elements
                ("sprite:" ++ sid)).map (·.firstEditedBy))
           (match Assoc.find? (sharedOf (ensureSharedState st w) w).spriteMetrics sid with
            | some p => some p.firstEditedAt
            | none => (Assoc.find? (sharedOf (ensureSharedState st w) w).elements
                ("sprite:" ++ sid)).map (·.firstEditedAt))])) ∧
    (ifMatchSatisfiedAny (resolveIfMatch data)
        [(Assoc.find? (sharedOf (ensureSharedState st w) w).spriteMetrics sid).map (·.etag),
         (Assoc.find? (sharedOf (ensureSharedState st w) w).elements ("sprite:" ++ sid)).map (·.etag)]
        = true →
      (handleSpriteUpdate st w u conn data nowMs).2.all (fun e => !eventIsConflict e) = true ∧
      (Assoc.find? (sharedOf (handleSpriteUpdate st w u conn data nowMs).1 w).spriteMetrics
          sid).map (fun m => m.version) =
        some (max
          (match Assoc.find? (sharedOf (ensureSharedState st w) w).spriteMetrics sid with
           | some p => p.version | none => 0)
          (match Assoc.find? (sharedOf (ensureSharedState st w) w).elements ("sprite:" ++ sid) with
           | some e => e.version | none => 0) + 1)) := by
  have hne' : (sid = "") = False := by simp [hne]
  refine ⟨?_, ?_, ?_⟩
  · intro s etags hs
    simp only [ifMatchSatisfiedAny, if_neg hs, List.any_eq_true, decide_eq_true_eq]
    exact ⟨fun ⟨c, hc, he⟩ => he ▸ hc, fun h => ⟨some s, h, rfl⟩⟩
  · intro hfail
    simp only [handleSpriteUpdate, hsid, hlock, hne', hfail, Bool.false_eq_true,
      not_false_iff, if_false, if_true]
  · intro hok
    constructor
    · simp only [handleSpriteUpdate, hsid, hlock, hne', hok, Bool.false_eq_true,
        Bool.true_eq_false, not_true_eq_false, not_false_iff, if_false, if_true]
      exact spriteUpdateCommit_noConflict _ _ _ _ _ _
    · simp only [handleSpriteUpdate, hsid, hlock, hne', hok, Bool.false_eq_true,
        Bool.true_eq_false, not_true_eq_false, not_false_iff, if_false, if_true]
      exact spriteUpdateCommit_metricsVersion _ _ _ _ _ _

/-- Witness for C2 amended at the fixture: the gate passes with the
metrics ETag alone and the metrics version becomes 3. -/
theorem c2_witness :
    lockHeldByOther fixStSprite "w" "u1" "s1" = false ∧
    (handleSpriteUpdate fixStSprite "w" "u1" 1 fixSpriteUpdateReq 30000).2.all
      (fun e => !eventIsConflict e) = true := by
  refine ⟨by decide, ?_⟩
  exact (((c2_ifmatch_any_semantics fixStSprite "w" "u1" 1 fixSpriteUpdateReq 30000 "s1"
    rfl (by decide) (by decide)).2.2) (by decide)).1

/-! ## C5 -/

/-- C5: whenever the If-Match gate of one of the五 five mutation handlers
fails, the sender receives exactly one `conflict` frame carrying
entityType, entityId, the submitted ifMatch, the current ETag, and
firstEditedBy/firstEditedAt; the handler performs no shared-state write
(every workspace's entity maps are unchanged up to the creation of an
empty container) and emits no broadcast. -/
theorem c5_conflict_atomicity :
    (∀ (st : ServerState) (w u : String) (conn : Nat) (data : JVal) (nowMs : Int)
        (bid : String),
      hasPermission st.perms w u PermissionKey.canEditBlocks = true →
      asStringOr (jget data "blockId") "" = bid →
      bid ≠ "" →
      lockHeldByOther st w u bid = false →
      ifMatchSatisfied (resolveIfMatch data)
        ((Assoc.find? (sharedOf (ensureSharedState st w) w).elements
          ("block:" ++ bid)).map (·.etag)) = false →
      handleBlockMove st w u conn data nowMs =
        (ensureSharedState st w,
         [sendEtagConflict conn "block" bid (resolveIfMatch data)
           ((Assoc.find? (sharedOf (ensureSharedState st w) w).elements
             ("block:" ++ bid)).map (·.etag))
           ((Assoc.find? (sharedOf (ensureSharedState st w) w).elements
             ("block:" ++ bid)).map (·.firstEditedBy))
           ((Assoc.find? (sharedOf (ensureSharedState st w) w).elements
             ("block:" ++ bid)).map (·.firstEditedAt))]) ∧
      (∀ w', sharedOf (handleBlockMove st w u conn data nowMs).1 w' = sharedOf st w')) ∧
    (∀ (st : ServerState) (w u : String) (conn : Nat) (data : JVal) (nowMs : Int)
        (sid : String),
      asStringOr (jget data "spriteId") "" = sid →
      sid ≠ "" →
      lockHeldByOther st w u sid = false →
      ifMatchSatisfiedAny (resolveIfMatch data)
        [(Assoc.find? (sharedOf (ensureSharedState st w) w).spriteMetrics sid).map (·.etag),
         (Assoc.find? (sharedOf (ensureSharedState st w) w).elements
           ("sprite:" ++ sid)).map (·.etag)] = false →
      handleSpriteUpdate st w u conn data nowMs =
        (ensureSharedState st w,
         [sendEtagConflict conn "sprite" sid (resolveIfMatch data)
           (match Assoc.find? (sharedOf (ensureSharedState st w) w).spriteMetrics sid with
            | some p => some p.etag
            | none => (Assoc.find? (sharedOf (ensureSharedState st w) w).elements
                ("sprite:" ++ sid)).map (·.etag))
           (match Assoc.find? (sharedOf (ensureSharedState st w) w).spriteMetrics sid with
            | some p => some p.firstEditedBy
            | none => (Assoc.find? (sharedOf (ensureSharedState st w) w).elements
                ("sprite:" ++ sid)).map (·.firstEditedBy))
           (match Assoc.find? (sharedOf (ensureSharedState st w) w).spriteMetrics sid with
            | some p => some p.firstEditedAt
            | none => (Assoc.find? (sharedOf (ensureSharedState st w) w).elements
                ("sprite:" ++ sid)).map (·.firstEditedAt))]) ∧
      (∀ w', sharedOf (handleSpriteUpdate st w u conn data nowMs).1 w' = sharedOf st w')) ∧
    (∀ (st : ServerState) (w u : String) (conn : Nat) (data : JVal) (nowMs : Int)
        (et eid : String),
      asStringOr (jget data "elementType") "" = et →
      et ≠ "" →
      resolveElementIdFromPayload et (jget data "elementData") (jget data "elementId") = eid →
      eid ≠ "" →
      ifMatchSatisfied (resolveIfMatch data)
        ((Assoc.find? (sharedOf (ensureSharedState st w) w).elements
          (et ++ ":" ++ eid)).map (·.etag)) = false →
      handleCreateElement st w u conn data nowMs =
        (ensureSharedState st w,
         [sendEtagConflict conn et eid (resolveIfMatch data)
           ((Assoc.find? (sharedOf (ensureSharedState st w) w).elements
             (et ++ ":" ++ eid)).map (·.etag))
           ((Assoc.find? (sharedOf (ensureSharedState st w) w).elements
             (et ++ ":" ++ eid)).map (·.firstEditedBy))
           ((Assoc.find? (sharedOf (ensureSharedState st w) w).elements
             (et ++ ":" ++ eid)).map (·.firstEditedAt))]) ∧
      (∀ w', sharedOf (handleCreateElement st w u conn data nowMs).1 w' = sharedOf st w')) ∧
    (∀ (st : ServerState) (w u : String) (conn : Nat) (data : JVal)
        (et eid : String),
      asStringOr (jget data "elementType") "" = et →
      et ≠ "" →
      resolveElementIdFromPayload et (jget data "elementData") (jget data "elementId") = eid →
      eid ≠ "" →
      ifMatchSatisfiedAny (resolveIfMatch data)
        [(Assoc.find? (sharedOf (ensureSharedState st w) w).elements
           (et ++ ":" ++ eid)).map (·.etag),
         (if et = "sprite" then
            Assoc.find? (sharedOf (ensureSharedState st w) w).spriteMetrics eid
          else none).map (·.etag)] = false →
      handleDeleteElement st w u conn data =
        (ensureSharedState st w,
         [sendEtagConflict conn et eid (resolveIfMatch data)
           (match Assoc.find? (sharedOf (ensureSharedState st w) w).elements
               (et ++ ":" ++ eid) with
            | some e => some e.etag
            | none => (if et = "sprite" then
                Assoc.find? (sharedOf (ensureSharedState st w) w).spriteMetrics eid
              else none).map (·.etag))
           ((Assoc.find? (sharedOf (ensureSharedState st w) w).elements
             (et ++ ":" ++ eid)).map (·.firstEditedBy))
           ((Assoc.find? (sharedOf (ensureSharedState st w) w).elements
             (et ++ ":" ++ eid)).map (·.firstEditedAt))]) ∧
      (∀ w', sharedOf (handleDeleteElement st w u conn data).1 w' = sharedOf st w')) ∧
    (∀ (st : ServerState) (w u : String) (conn : Nat) (data : JVal) (nowMs : Int)
        (sid sj : String),
      strTrim (asStringOr (jget data "spriteId") "") = sid →
      sid ≠ "" →
      asStringOr (jget data "serializedJson") "" = sj →
      sj ≠ "" →
      (strLength sj > 2000000) = False →
      hasPermission st.perms w u PermissionKey.canEditBlocks = true →
      ifMatchSatisfied (resolveIfMatch data)
        ((Assoc.find? (sharedOf (ensureSharedState st w) w).workspaceSnapshots sid).map
          (·.etag)) = false →
      handleWorkspaceSnapshot st w u conn data nowMs =
        (ensureSharedState st w,
         [sendEtagConflict conn "workspace_snapshot" sid (resolveIfMatch data)
           ((Assoc.find? (sharedOf (ensureSharedState st w) w).workspaceSnapshots sid).map
             (·.etag))
           ((Assoc.find? (sharedOf (ensureSharedState st w) w).workspaceSnapshots sid).map
             (·.firstEditedBy))
           ((Assoc.find? (sharedOf (ensureSharedState st w) w).workspaceSnapshots sid).map
             (·.firstEditedAt))]) ∧
      (∀ w', sharedOf (handleWorkspaceSnapshot st w u conn data nowMs).1 w' = sharedOf st w')) := by
  refine ⟨?_, ?_, ?_, ?_, ?_⟩
  · intro st w u conn data nowMs bid hperm hbid hne hlock hfail
    have hne' : (bid = "") = False := by simp [hne]
    constructor
    · simp only [handleBlockMove, hperm, hbid, hne', hlock, hfail, Bool.false_eq_true,
        Bool.true_eq_false, eq_self_iff_true, not_true, not_false_iff, if_false, if_true]
    · intro w'
      simp only [handleBlockMove, hperm, hbid, hne', hlock, hfail, Bool.false_eq_true,
        Bool.true_eq_false, eq_self_iff_true, not_true, not_false_iff, if_false, if_true]
      simp only [sharedOf_ensure]
  · intro st w u conn data nowMs sid hsid hne hlock hfail
    have hne' : (sid = "") = False := by simp [hne]
    constructor
    · simp only [handleSpriteUpdate, hsid, hne', hlock, hfail, Bool.false_eq_true,
        Bool.true_eq_false, eq_self_iff_true, not_true, not_false_iff, if_false, if_true]
    · intro w'
      simp only [handleSpriteUpdate, hsid, hne', hlock, hfail, Bool.false_eq_true,
        Bool.true_eq_false, eq_self_iff_true, not_true, not_false_iff, if_false, if_true]
      simp only [sharedOf_ensure]
  · intro st w u conn data nowMs et eid het hetne heid heidne hfail
    have het' : (et = "") = False := by simp [hetne]
    have heid' : (eid = "") = False := by simp [heidne]
    constructor
    · simp only [handleCreateElement, het, heid, het', heid', hfail, Bool.false_eq_true,
        Bool.true_eq_false, eq_self_iff_true, not_true, not_false_iff, if_false, if_true,
        or_self, or_false, false_or]
    · intro w'
      simp only [handleCreateElement, het, heid, het', heid', hfail, Bool.false_eq_true,
        Bool.true_eq_false, eq_self_iff_true, not_true, not_false_iff, if_false, if_true,
        or_self, or_false, false_or]
      simp only [sharedOf_ensure]
  · intro st w u conn data et eid het hetne heid heidne hfail
    have het' : (et = "") = False := by simp [hetne]
    have heid' : (eid = "") = False := by simp [heidne]
    constructor
    · simp only [handleDeleteElement, het, heid, het', heid', hfail, Bool.false_eq_true,
        Bool.true_eq_false, eq_self_iff_true, not_true, not_false_iff, if_false, if_true,
        or_self, or_false, false_or]
    · intro w'
      simp only [handleDeleteElement, het, heid, het', heid', hfail, Bool.false_eq_true,
        Bool.true_eq_false, eq_self_iff_true, not_true, not_false_iff, if_false, if_true,
        or_self, or_false, false_or]
      simp only [sharedOf_ensure]
  · intro st w u conn data nowMs sid sj hsid hsidne hsj hsjne hlen hperm hfail
    have hsid' : (sid = "") = False := by simp [hsidne]
    have hsj' : (sj = "") = False := by simp [hsjne]
    constructor
    · simp only [handleWorkspaceSnapshot, hsid, hsj, hsid', hsj', hlen, hperm, hfail,
        Bool.false_eq_true, Bool.true_eq_false, eq_self_iff_true, not_true, not_false_iff,
        if_false, if_true, or_self, or_false, false_or]
    · intro w'
      simp only [handleWorkspaceSnapshot, hsid, hsj, hsid', hsj', hlen, hperm, hfail,
        Bool.false_eq_true, Bool.true_eq_false, eq_self_iff_true, not_true, not_false_iff,
        if_false, if_true, or_self, or_false, false_or]
      simp only [sharedOf_ensure]

/-- Witness for C5: a concrete failing `block_move` in the fixture
workspace (wrong ifMatch against block b9 that does not exist). -/
theorem c5_witness :
    hasPermission fixStAdmin.perms "w" "u1" PermissionKey.canEditBlocks = true ∧
    handleBlockMove fixStAdmin "w" "u1" 1
      (jobjOf [("type", JVal.jstr "block_move"), ("blockId", JVal.jstr "b9"),
               ("ifMatch", JVal.jstr "W/bogus")]) 0 =
      (ensureSharedState fixStAdmin "w",
       [sendEtagConflict 1 "block" "b9" (some "W/bogus") none none none]) := by
  refine ⟨by decide, ?_⟩
  have h := (c5_conflict_atomicity.1 fixStAdmin "w" "u1" 1
    (jobjOf [("type", JVal.jstr "block_move"), ("blockId", JVal.jstr "b9"),
             ("ifMatch", JVal.jstr "W/bogus")]) 0 "b9"
    (by decide) rfl (by decide) (by decide) (by decide)).1
  exact h.trans (by decide)

/-- Projections of `ensureSharedState` other than the shared-state map. -/
theorem ensure_workspaces (st : ServerState) (w : String) :
    (ensureSharedState st w).workspaces = st.workspaces := by
  unfold ensureSharedState; split <;> rfl

theorem ensure_workspaceLocks (st : ServerState) (w : String) :
    (ensureSharedState st w).workspaceLocks = st.workspaceLocks := by
  unfold ensureSharedState; split <;> rfl

theorem ensure_skipFlags (st : ServerState) (w : String) :
    (ensureSharedState st w).skipFlags = st.skipFlags := by
  unfold ensureSharedState; split <;> rfl

theorem ensure_perms (st : ServerState) (w : String) :
    (ensureSharedState st w).perms = st.perms := by
  unfold ensureSharedState; split <;> rfl

theorem ensure_cleanupTimers (st : ServerState) (w : String) :
    (ensureSharedState st w).cleanupTimers = st.cleanupTimers := by
  unfold ensureSharedState; split <;> rfl

theorem ensure_consumedTicketIds (st : ServerState) (w : String) :
    (ensureSharedState st w).consumedTicketIds = st.consumedTicketIds := by
  unfold ensureSharedState; split <;> rfl

/-! ## C6 -/

/-- C6: a successful `auth` for a user id already present in the
workspace flags the prior socket with skipCleanup, closes it with code
4001, replaces the member slot with the new connection, broadcasts
`user_updated` (never `user_joined` or `user_left`), leaves the lock map
untouched, and a close event arriving for any skip-flagged socket removes
no member, releases no locks, and emits no frame. -/
theorem c6_reconnect_takeover (st : ServerState) (cs : ConnState) (conn : Nat)
    (data : JVal) (payload : Option RawTicketPayload) (nowMs : Int) (tc : TicketClaims)
    (wsUsers : Assoc ClientState) (eu : ClientState)
    (hrec : isRecord data = true)
    (htype : asStringOr (jget data "type") "" = "auth")
    (htok : strTrim (asStringOr (jget data "token") "") ≠ "")
    (hver : verifyJoinTicket payload = some tc)
    (hfresh : Assoc.contains (pruneConsumedTicketIds st.consumedTicketIds (nowMs / 1000))
      tc.ticketId = false)
    (hw : normalizeWorkspaceId (jget data "workspace") = "" ∨
      normalizeWorkspaceId (jget data "workspace") = tc.workspaceId)
    (hu : normalizeUserId (jget data "userId") = "" ∨
      normalizeUserId (jget data "userId") = tc.userId)
    (hws : Assoc.find? st.workspaces tc.workspaceId = some wsUsers)
    (hex : Assoc.find? wsUsers tc.userId = some eu)
    (heuc : ¬ eu.conn = conn) :
    (handleMessage st cs conn data payload nowMs).1.skipFlags = eu.conn :: st.skipFlags ∧
    (handleMessage st cs conn data payload nowMs).2.2.head? =
      some (OutEvent.closeSock eu.conn 4001 "Reconnected with same userId") ∧
    (handleMessage st cs conn data payload nowMs).2.2.length = 3 ∧
    (Assoc.find? ((Assoc.find? (handleMessage st cs conn data payload nowMs).1.workspaces
        tc.workspaceId).getD []) tc.userId).map (·.conn) = some conn ∧
    ((handleMessage st cs conn data payload nowMs).2.2.get? 2).map
      (eventIsUserUpdatedBroadcast tc.workspaceId) = some true ∧
    (handleMessage st cs conn data payload nowMs).2.2.all
      (fun e => !eventIsUserJoined e && !eventIsUserLeft e) = true ∧
    (handleMessage st cs conn data payload nowMs).1.workspaceLocks = st.workspaceLocks ∧
    (∀ (st2 : ServerState) (cs2 : ConnState) (c : Nat),
      st2.skipFlags.contains c = true → handleClose st2 cs2 c = (st2, [])) := by
  have hw' : ¬ (normalizeWorkspaceId (jget data "workspace") ≠ "" ∧
      normalizeWorkspaceId (jget data "workspace") ≠ tc.workspaceId) := by
    rcases hw with h | h <;> simp [h]
  have hu' : ¬ (normalizeUserId (jget data "userId") ≠ "" ∧
      normalizeUserId (jget data "userId") ≠ tc.userId) := by
    rcases hu with h | h <;> simp [h]
  have hcont : Assoc.contains st.workspaces tc.workspaceId = true := by
    simp [Assoc.contains, hws]
  have hclose : ∀ (st2 : ServerState) (cs2 : ConnState) (c : Nat),
      st2.skipFlags.contains c = true → handleClose st2 cs2 c = (st2, []) := by
    intro st2 cs2 c hc
    simp only [handleClose, hc, eq_self_iff_true, if_true]
  refine ⟨?_, ?_, ?_, ?_, ?_, ?_, ?_, hclose⟩ <;>
  · simp only [handleMessage, hrec, htype, handleAuth, htok, hver, hfresh, hw', hu',
      Bool.false_eq_true, not_false_iff, not_true, ne_eq, if_false, if_true,
      clearWorkspaceCleanupTimer,
      ensure_workspaces, ensure_workspaceLocks, ensure_skipFlags, ensure_perms,
      ensure_cleanupTimers, ensure_consumedTicketIds, hcont, hws, hex, heuc,
      Option.getD, Option.isSome, Option.map, Assoc.find?_set,
      List.cons_append, List.nil_append, List.head?, List.length, List.get?,
      List.all, List.all_cons, List.all_nil, Bool.not_false, Bool.not_true,
      Bool.and_true, Bool.true_and, eventIsUserUpdatedBroadcast,
      eventIsUserJoined, eventIsUserLeft, decide_True, decide_eq_true_eq,
      eq_self_iff_true, Option.some.injEq]
    repeat' split
    all_goals (first | rfl | exact absurd trivial (by assumption) | simp | simp_all)

/-- Witness for C6 at the fixture: a second admission of u1 on socket 7
closes socket 1 with 4001, flags it, and keeps its later close inert. -/
theorem c6_witness :
    (handleMessage fixStAdmin ConnState.fresh 7 fixAuthData
      (some fixPayloadU1) 10000).1.skipFlags = [1] ∧
    (handleMessage fixStAdmin ConnState.fresh 7 fixAuthData
      (some fixPayloadU1) 10000).2.2.head? =
      some (OutEvent.closeSock 1 4001 "Reconnected with same userId") ∧
    handleClose (handleMessage fixStAdmin ConnState.fresh 7 fixAuthData
        (some fixPayloadU1) 10000).1 fixCsU1 1 =
      ((handleMessage fixStAdmin ConnState.fresh 7 fixAuthData
        (some fixPayloadU1) 10000).1, []) := by
  have h := c6_reconnect_takeover fixStAdmin ConnState.fresh 7 fixAuthData
    (some fixPayloadU1) 10000
    { userId := "u1", workspaceId := "w", username := "", role := UserRole.ADMIN,
      ticketId := "j1", expiresAt := 100 }
    [("u1", fixClientU1)] fixClientU1
    (by decide) (by decide) (by decide) (by decide) (by decide)
    (by decide) (by decide) (by decide) (by decide) (by decide)
  refine ⟨h.1.trans (by decide), h.2.1, ?_⟩
  exact h.2.2.2.2.2.2.2 _ fixCsU1 1 (by
    rw [h.1]
    decide)

/-! ## C7 -/

/-- C7: the retention interval defaults to 120000 ms; when the last
member of a workspace disconnects, the close handler arms a single-shot
cleanup timer of the configured duration; if the timer fires while
membership is still empty, the member, lock, shared-state, and permission
maps of that workspace are all destroyed; and a successful admission to
the workspace cancels the timer and leaves the shared-state and lock maps
unchanged. -/
theorem c7_empty_workspace_cleanup :
    emptyWorkspaceRetentionMs none = 120000 ∧
    (∀ (st : ServerState) (cs : ConnState) (conn : Nat) (w u : String)
        (m : Assoc ClientState),
      st.skipFlags.contains conn = false →
      cs = { userId := some u, workspaceId := some w, isAuthenticated := true } →
      Assoc.find? st.workspaces w = some m →
      (Assoc.erase m u).length = 0 →
      Assoc.find? (handleClose st cs conn).1.cleanupTimers w = some st.retentionMs) ∧
    (∀ (st : ServerState) (w : String),
      Assoc.contains st.cleanupTimers w = true →
      ((Assoc.find? st.workspaces w).getD []).length = 0 →
      cleanupTimerFire st w = deleteWorkspaceState st w ∧
      ((st.workspaces.map Prod.fst).Nodup →
        Assoc.find? (cleanupTimerFire st w).workspaces w = none) ∧
      ((st.workspaceLocks.map Prod.fst).Nodup →
        Assoc.find? (cleanupTimerFire st w).workspaceLocks w = none) ∧
      ((st.sharedState.map Prod.fst).Nodup →
        Assoc.find? (cleanupTimerFire st w).sharedState w = none) ∧
      ((st.perms.map Prod.fst).Nodup →
        Assoc.find? (cleanupTimerFire st w).perms w = none) ∧
      ((st.cleanupTimers.map Prod.fst).Nodup →
        Assoc.find? (cleanupTimerFire st w).cleanupTimers w = none)) ∧
    (∀ (st : ServerState) (cs : ConnState) (conn : Nat) (data : JVal)
        (payload : Option RawTicketPayload) (nowMs : Int) (tc : TicketClaims),
      isRecord data = true →
      asStringOr (jget data "type") "" = "auth" →
      strTrim (asStringOr (jget data "token") "") ≠ "" →
      verifyJoinTicket payload = some tc →
      Assoc.contains (pruneConsumedTicketIds st.consumedTicketIds (nowMs / 1000))
        tc.ticketId = false →
      (normalizeWorkspaceId (jget data "workspace") = "" ∨
       normalizeWorkspaceId (jget data "workspace") = tc.workspaceId) →
      (normalizeUserId (jget data "userId") = "" ∨
       normalizeUserId (jget data "userId") = tc.userId) →
      Assoc.contains st.workspaces tc.workspaceId = true →
      (Assoc.find? st.sharedState tc.workspaceId).isSome = true →
      ((st.cleanupTimers.map Prod.fst).Nodup →
        Assoc.find? (handleMessage st cs conn data payload nowMs).1.cleanupTimers
          tc.workspaceId = none) ∧
      (handleMessage st cs conn data payload nowMs).1.sharedState = st.sharedState ∧
      (handleMessage st cs conn data payload nowMs).1.workspaceLocks = st.workspaceLocks) := by
  refine ⟨rfl, ?_, ?_, ?_⟩
  · intro st cs conn w u m hskip hcs hws hempty
    subst hcs
    simp only [handleClose, hskip, Bool.false_eq_true, not_false_iff, if_false, if_true,
      hws, hempty, scheduleWorkspaceCleanup, clearWorkspaceCleanupTimer]
    split <;> simp [Assoc.find?_set]
  · intro st w hc hempty
    have hfire : cleanupTimerFire st w = deleteWorkspaceState st w := by
      simp only [cleanupTimerFire, hc, Bool.true_eq_false, not_true_eq_false, if_false,
        Bool.false_eq_true, not_false_iff, if_true]
      split
      · rename_i m hm
        rw [hm] at hempty
        simp only [Option.getD] at hempty
        simp [hempty, deleteWorkspaceState]
      · rfl
    refine ⟨hfire, ?_, ?_, ?_, ?_, ?_⟩ <;>
      (intro hnd
       rw [hfire]
       simp only [deleteWorkspaceState, deleteWorkspacePerms]
       exact Assoc.find?_erase_self _ _ hnd)
  · intro st cs conn data payload nowMs tc hrec htype htok hver hfresh hw hu hcont hss
    have hw' : ¬ (normalizeWorkspaceId (jget data "workspace") ≠ "" ∧
        normalizeWorkspaceId (jget data "workspace") ≠ tc.workspaceId) := by
      rcases hw with h | h <;> simp [h]
    have hu' : ¬ (normalizeUserId (jget data "userId") ≠ "" ∧
        normalizeUserId (jget data "userId") ≠ tc.userId) := by
      rcases hu with h | h <;> simp [h]
    obtain ⟨sv, hsv⟩ := Option.isSome_iff_exists.mp hss
    refine ⟨?_, ?_, ?_⟩ <;>
    · first
      | (intro hnd
         simp only [handleMessage, hrec, htype, handleAuth, htok, hver, hfresh, hw', hu',
           Bool.false_eq_true, not_false_iff, not_true, ne_eq, if_false, if_true,
           clearWorkspaceCleanupTimer, ensureSharedState, hcont, hsv,
           Option.getD, Option.isSome, Option.map]
         repeat' split
         all_goals (first
           | exact Assoc.find?_erase_self _ _ hnd
           | rfl
           | exact absurd trivial (by assumption)
           | simp_all))
      | (simp only [handleMessage, hrec, htype, handleAuth, htok, hver, hfresh, hw', hu',
           Bool.false_eq_true, not_false_iff, not_true, ne_eq, if_false, if_true,
           clearWorkspaceCleanupTimer, ensureSharedState, hcont, hsv,
           Option.getD, Option.isSome, Option.map]
         repeat' split
         all_goals (first
           | rfl
           | exact absurd trivial (by assumption)
           | simp_all))

/-- Witness for C7: in the fixture, the last member leaving arms a
120000 ms timer, firing it destroys every map of workspace w, and an
admission beforehand cancels the timer and preserves the shared state. -/
theorem c7_witness :
    Assoc.find? (handleClose fixStAdmin fixCsU1 1).1.cleanupTimers "w" = some 120000 ∧
    Assoc.find? (cleanupTimerFire (handleClose fixStAdmin fixCsU1 1).1 "w").sharedState
      "w" = none ∧
    Assoc.find? (handleMessage (handleClose fixStAdmin fixCsU1 1).1 ConnState.fresh 9
      fixAuthData (some fixPayloadU1) 10000).1.cleanupTimers "w" = none ∧
    (handleMessage (handleClose fixStAdmin fixCsU1 1).1 ConnState.fresh 9
      fixAuthData (some fixPayloadU1) 10000).1.sharedState =
      (handleClose fixStAdmin fixCsU1 1).1.sharedState := by
  refine ⟨?_, ?_, ?_, ?_⟩
  · exact (c7_empty_workspace_cleanup.2.1 fixStAdmin fixCsU1 1 "w" "u1"
      [("u1", fixClientU1)] (by decide) rfl (by decide) (by decide)).trans (by decide)
  · exact ((c7_empty_workspace_cleanup.2.2.1 (handleClose fixStAdmin fixCsU1 1).1 "w"
      (by decide) (by decide)).2.2.2.1 (by decide))
  · exact (c7_empty_workspace_cleanup.2.2.2 (handleClose fixStAdmin fixCsU1 1).1
      ConnState.fresh 9 fixAuthData (some fixPayloadU1) 10000
      { userId := "u1", workspaceId := "w", username := "", role := UserRole.ADMIN,
        ticketId := "j1", expiresAt := 100 }
      (by decide) (by decide) (by decide) (by decide) (by decide) (by decide) (by decide)
      (by decide) (by decide)).1 (by decide)
  · exact (c7_empty_workspace_cleanup.2.2.2 (handleClose fixStAdmin fixCsU1 1).1
      ConnState.fresh 9 fixAuthData (some fixPayloadU1) 10000
      { userId := "u1", workspaceId := "w", username := "", role := UserRole.ADMIN,
        ticketId := "j1", expiresAt := 100 }
      (by decide) (by decide) (by decide) (by decide) (by decide) (by decide) (by decide)
      (by decide) (by decide)).2.1

end Colab
